import Mathlib

/-!
Shallow embedding of the `banana-site` server (`src/server/index.js`, the
authoritative second copy in that file) and proofs about its favorites
materializer, quota accountant, token verification, favorites CRUD and
file-serving path checks.

Conventions of the embedding:
* JS values flowing through the favorites subsystem are modelled by the
  inductive `Banana.Json` (numbers restricted to integers: every number the
  claims exercise is an integer, and `String(n)` agrees with `Int` printing
  there).
* Byte buffers are `List Nat` (each entry < 256 where it matters).
* Strings are Lean `String`s; `Buffer.from(s,'utf8')` is modelled as the
  code-point map `strBytes`, exact for ASCII strings (every string the
  claims exercise is ASCII, where UTF-8 is the identity embedding).
* Filesystem writes are modelled as association lists keyed by file name;
  `Date.now()_<random>` file-name generation is an abstract injective-free
  supply `gen : Nat → String` threaded through the materializer state.
* `crypto.createHmac('sha256',...)` is an abstract function parameter
  `hmacSig`; network fetches (`fetchUrlBuffer`) are an abstract function
  parameter `fetch` returning either an error (network/HTTP error, byte cap,
  redirect cap, all of which surface as a rejected promise) or the body
  bytes plus `Content-Type`.
-/

namespace Banana

/-- A JSON value as manipulated by the server (numbers restricted to `Int`). -/
inductive Json where
  | null
  | bool (b : Bool)
  | num (n : Int)
  | str (s : String)
  | arr (elems : List Json)
  | obj (fields : List (String × Json))
deriving Repr, Inhabited

namespace Json

mutual
/-- Structural Boolean equality on JSON values (kernel-reducible, unlike
the derived instance). -/
def beqJson : Json → Json → Bool
  | .null, .null => true
  | .bool a, .bool b => a == b
  | .num a, .num b => a == b
  | .str a, .str b => a == b
  | .arr a, .arr b => beqJsonList a b
  | .obj a, .obj b => beqJsonFields a b
  | _, _ => false

/-- Elementwise equality of JSON arrays. -/
def beqJsonList : List Json → List Json → Bool
  | [], [] => true
  | a :: as, b :: bs => beqJson a b && beqJsonList as bs
  | _, _ => false

/-- Memberwise equality of JSON objects (order-sensitive, as a faithful
structural comparison of the modelled value). -/
def beqJsonFields : List (String × Json) → List (String × Json) → Bool
  | [], [] => true
  | (k, v) :: as, (k2, v2) :: bs => k == k2 && beqJson v v2 && beqJsonFields as bs
  | _, _ => false
end

instance : BEq Json := ⟨beqJson⟩

/-- JS truthiness of a JSON value (`if (v)`): `null`, `false`, `0` and `""`
are falsy, everything else (objects and arrays included) is truthy. -/
def truthy : Json → Bool
  | .null => false
  | .bool b => b
  | .num n => n != 0
  | .str s => s ≠ ""
  | .arr _ => true
  | .obj _ => true

/-- `o[k]` on an object: first binding of `k`, `none` for a missing key or a
non-object (JS `undefined`). -/
def get : Json → String → Option Json
  | .obj fields, k => fields.lookup k
  | _, _ => none

/-- `o[k]` when the handler only uses the value if it is a string
(`typeof node.mime === 'string' && node.mime`-style guards). -/
def getStr (j : Json) (k : String) : Option String :=
  match j.get k with
  | some (.str s) => some s
  | _ => none

mutual
/-- JS `String(v)` coercion: strings unchanged, `null → "null"`, numbers and
booleans printed, arrays joined by `,` (with `null` printing empty, as JS
`Array.prototype.toString` does), objects `"[object Object]"`. -/
def toJsString : Json → String
  | .null => "null"
  | .bool b => if b then "true" else "false"
  | .num n => toString n
  | .str s => s
  | .arr es => joinedElems es
  | .obj _ => "[object Object]"

/-- Elements of an array under `String(...)`, comma-joined; `null` elements
print as the empty string (JS array stringification). -/
def joinedElems : List Json → String
  | [] => ""
  | [.null] => ""
  | [e] => toJsString e
  | .null :: es => "," ++ joinedElems es
  | e :: es => toJsString e ++ "," ++ joinedElems es
end

/-- `String(x?.id)` where a missing field is `undefined`:
`String(undefined) = "undefined"`. -/
def optToJsString : Option Json → String
  | none => "undefined"
  | some v => toJsString v

end Json

/-! ### Byte/string helpers -/

/-- `Buffer.from(s, 'utf8')` modelled as the code-point map; exact on ASCII
strings (the claims only exercise ASCII payloads). -/
def strBytes (s : String) : List Nat :=
  s.data.map Char.toNat

/-- `buffer.toString('utf8')` modelled pointwise: ASCII bytes map to their
characters, anything else to U+FFFD (multi-byte UTF-8 reassembly is not
modelled; the claims only exercise ASCII payloads). -/
def bytesToStr (bs : List Nat) : String :=
  ⟨bs.map (fun b => if b < 128 then Char.ofNat b else '�')⟩

/-! ### Base64 (standard alphabet) and base64url, as used by
`Buffer.from(str,'base64')` / `buf.toString('base64')`. -/

/-- The base64 alphabet, indexed by sextet value. -/
def b64Char (n : Nat) : Char :=
  if n < 26 then Char.ofNat ('A'.toNat + n)
  else if n < 52 then Char.ofNat ('a'.toNat + (n - 26))
  else if n < 62 then Char.ofNat ('0'.toNat + (n - 52))
  else if n = 62 then '+'
  else '/'

/-- Inverse of `b64Char`: `some` sextet for alphabet characters, `none` for
everything else (padding `=` included; Node ignores non-alphabet bytes). -/
def b64Val (c : Char) : Option Nat :=
  if 'A' ≤ c ∧ c ≤ 'Z' then some (c.toNat - 'A'.toNat)
  else if 'a' ≤ c ∧ c ≤ 'z' then some (26 + (c.toNat - 'a'.toNat))
  else if '0' ≤ c ∧ c ≤ '9' then some (52 + (c.toNat - '0'.toNat))
  else if c = '+' then some 62
  else if c = '/' then some 63
  else none

/-- Encode bytes in 3-byte groups to base64 characters with `=` padding. -/
def b64EncodeChars : List Nat → List Char
  | [] => []
  | [a] => [b64Char (a / 4), b64Char (a % 4 * 16), '=', '=']
  | [a, b] => [b64Char (a / 4), b64Char (a % 4 * 16 + b / 16), b64Char (b % 16 * 4), '=']
  | a :: b :: c :: rest =>
      b64Char (a / 4) :: b64Char (a % 4 * 16 + b / 16) ::
      b64Char (b % 16 * 4 + c / 64) :: b64Char (c % 64) :: b64EncodeChars rest

/-- `buf.toString('base64')`. -/
def base64Encode (bs : List Nat) : String :=
  ⟨b64EncodeChars bs⟩

/-- Decode a list of sextets in 4-sextet groups; a trailing group of 3 gives
2 bytes, of 2 gives 1 byte, of 1 gives nothing (Node drops the partial). -/
def b64DecodeSextets : List Nat → List Nat
  | s0 :: s1 :: s2 :: s3 :: rest =>
      (s0 * 4 + s1 / 16) :: (s1 % 16 * 16 + s2 / 4) :: (s2 % 4 * 64 + s3) ::
      b64DecodeSextets rest
  | [s0, s1, s2] => [s0 * 4 + s1 / 16, s1 % 16 * 16 + s2 / 4]
  | [s0, s1] => [s0 * 4 + s1 / 16]
  | _ => []

/-- `Buffer.from(s, 'base64')`: non-alphabet characters (padding included)
are ignored, then sextets are packed into bytes. -/
def base64Decode (s : String) : List Nat :=
  b64DecodeSextets (s.data.filterMap b64Val)

/-- A canonical base64 string: re-encoding its decoding reproduces it.
This is the standard characterization of the image of `base64Encode`. -/
def isCanonicalBase64 (s : String) : Bool :=
  base64Encode (base64Decode s) == s

/-- `base64urlEncode` (`index.js` lines 789-796): standard base64 with `=`
stripped, `+ → -`, `/ → _`. -/
def base64urlEncode (bs : List Nat) : String :=
  ⟨(b64EncodeChars bs).filterMap fun c =>
    if c = '=' then none
    else if c = '+' then some '-'
    else if c = '/' then some '_'
    else some c⟩

/-- `base64urlDecodeToBuffer` (lines 798-802): map `- → +`, `_ → /`, re-pad,
then base64-decode. Padding characters are ignored by the decoder, so the
re-padding step is the identity on the decoded bytes and is omitted. -/
def base64urlDecode (s : String) : List Nat :=
  base64Decode ⟨s.data.map fun c =>
    if c = '-' then '+' else if c = '_' then '/' else c⟩

/-! ### Small JS string/number helpers used by the handlers -/

/-- `hay.includes(pat)` over char lists. -/
def charsContain (pat : List Char) : List Char → Bool
  | [] => pat.isEmpty
  | c :: cs => pat.isPrefixOf (c :: cs) || charsContain pat cs

/-- `s.includes(pat)`. -/
def strIncludes (s pat : String) : Bool :=
  charsContain pat.data s.data

/-- `s.startsWith(pre)` (structural, so concrete instances evaluate in the
kernel). -/
def strStarts (s pre : String) : Bool :=
  pre.data.isPrefixOf s.data

/-- ASCII lower-casing of one character (`String.prototype.toLowerCase`;
none of the claims' strings are non-ASCII). -/
def asciiLowerChar (c : Char) : Char :=
  if 'A' ≤ c ∧ c ≤ 'Z' then Char.ofNat (c.toNat + 32) else c

/-- `s.toLowerCase()` over ASCII. -/
def asciiLower (s : String) : String :=
  ⟨s.data.map asciiLowerChar⟩

/-- JS whitespace as trimmed by `String.prototype.trim` (ASCII part). -/
def isJsWsChar (c : Char) : Bool :=
  c = ' ' || c = '\t' || c = '\n' || c = '\r' || c.toNat = 11 || c.toNat = 12

/-- `s.trim()`. -/
def jsTrim (s : String) : String :=
  ⟨((s.data.dropWhile isJsWsChar).reverse.dropWhile isJsWsChar).reverse⟩

/-- Drop the first `n` characters (`s.slice(n)` / `replace`-a-prefix). -/
def strDrop (s : String) (n : Nat) : String :=
  ⟨s.data.drop n⟩

/-- `parts.join(sep)`. -/
def strJoinWith (sep : String) : List String → String
  | [] => ""
  | [x] => x
  | x :: xs => x ++ sep ++ strJoinWith sep xs

/-- JS `String.prototype.split` with a one-character separator, over the
character list: `"" → [""]`, separators at the ends produce empty pieces. -/
def jsSplitChars (sep : Char) : List Char → List (List Char)
  | [] => [[]]
  | c :: cs =>
      let r := jsSplitChars sep cs
      if c = sep then [] :: r else (c :: r.headD []) :: r.tail

/-- `s.split(sep)` (one-character separator). -/
def jsSplit (sep : Char) (s : String) : List String :=
  (jsSplitChars sep s.data).map fun cs => ⟨cs⟩

/-- `Number(s)` on a string, restricted to the integer grammar (`none` is
NaN; fractional/exponent/hex literals are out of the claims' scope and map
to `none`). The empty or all-whitespace string is `0`, as in JS. -/
def parseJsNumber (s : String) : Option Int :=
  let t := jsTrim s
  if t = "" then some 0
  else
    let (neg, ds) :=
      match t.data with
      | '-' :: rest => (true, rest)
      | '+' :: rest => (false, rest)
      | cs => (false, cs)
    if ds ≠ [] ∧ ds.all (fun c => '0' ≤ c ∧ c ≤ '9') then
      let n : Int := ds.foldl (fun acc c => acc * 10 + (c.toNat - '0'.toNat : Int)) 0
      some (if neg then -n else n)
    else none

/-- JS `ToNumber` coercion of a JSON value (`none` is NaN): numbers direct,
booleans 0/1, `null` 0, strings via the numeric grammar, arrays and objects
via their `String(...)` form (so `{} → NaN`, `[5] → 5`, `[1,2] → NaN`). -/
def Json.toNumber : Json → Option Int
  | .num n => some n
  | .bool b => some (if b then 1 else 0)
  | .null => some 0
  | .str s => parseJsNumber s
  | v => parseJsNumber v.toJsString

/-- `mimeToExt` (`index.js` lines 1184-1192). -/
def mimeToExt (mime : String) : String :=
  let m := asciiLower mime
  if m = "image/jpeg" then "jpg"
  else if m = "image/jpg" then "jpg"
  else if m = "image/png" then "png"
  else if m = "image/webp" then "webp"
  else if m = "image/gif" then "gif"
  else "bin"

/-- `isHttpUrl` (lines 1214-1217) on a string. -/
def isHttpUrl (u : String) : Bool :=
  strStarts u "http://" || strStarts u "https://"

/-- `parseDataUrl` (lines 1168-1176): the regex
`^data:([^;]+);base64,(.+)$` destructured into (mime, base64 payload);
`.` does not match a newline, so the payload must be newline-free. Returns
the payload string; the caller decodes it (`Buffer.from(b64,'base64')`). -/
def parseDataUrl (dataUrl : String) : Option (String × String) :=
  let cs := dataUrl.data
  if cs.take 5 = "data:".data then
    let rest := cs.drop 5
    let mime := rest.takeWhile (fun c => c ≠ ';')
    let after := rest.drop mime.length
    if mime ≠ [] ∧ after.take 8 = ";base64,".data then
      let b64 := after.drop 8
      if b64 ≠ [] ∧ ¬ '\n' ∈ b64 then some (⟨mime⟩, ⟨b64⟩) else none
    else none
  else none

/-! ### `encodeURIComponent` / `decodeURIComponent` -/

/-- Characters `encodeURIComponent` leaves intact. -/
def isUnreservedURI (c : Char) : Bool :=
  ('A' ≤ c && c ≤ 'Z') || ('a' ≤ c && c ≤ 'z') || ('0' ≤ c && c ≤ '9') ||
  c ∈ ['-', '_', '.', '!', '~', '*', '\'', '(', ')']

/-- UTF-8 bytes of one character (pure arithmetic on the code point). -/
def utf8Bytes (c : Char) : List Nat :=
  let n := c.toNat
  if n < 128 then [n]
  else if n < 2048 then [192 + n / 64, 128 + n % 64]
  else if n < 65536 then [224 + n / 4096, 128 + n / 64 % 64, 128 + n % 64]
  else [240 + n / 262144, 128 + n / 4096 % 64, 128 + n / 64 % 64, 128 + n % 64]

/-- Upper-case hex digit of a value < 16. -/
def hexDigit (n : Nat) : Char :=
  if n < 10 then Char.ofNat ('0'.toNat + n) else Char.ofNat ('A'.toNat + n - 10)

/-- `encodeURIComponent`: unreserved characters kept, everything else
percent-encoded bytewise over its UTF-8 encoding. -/
def encodeURIComponent (s : String) : String :=
  ⟨(s.data.map fun c =>
      if isUnreservedURI c then [c]
      else ((utf8Bytes c).map fun b => ['%', hexDigit (b / 16), hexDigit (b % 16)]).flatten
    ).flatten⟩

/-- Hex value of one character, `none` if not a hex digit. -/
def hexVal (c : Char) : Option Nat :=
  if '0' ≤ c ∧ c ≤ '9' then some (c.toNat - '0'.toNat)
  else if 'A' ≤ c ∧ c ≤ 'F' then some (10 + c.toNat - 'A'.toNat)
  else if 'a' ≤ c ∧ c ≤ 'f' then some (10 + c.toNat - 'a'.toNat)
  else none

/-- `decodeURIComponent` at the byte level for ASCII results: `%XX` with
`XX < 0x80` becomes that character; non-ASCII percent-bytes become U+FFFD
(multi-byte UTF-8 reassembly is not modelled — every decoded string the
claims exercise is ASCII); a `%` not followed by two hex digits is kept
(the real function would throw `URIError`; no claim exercises that). -/
def pctDecodeChars : List Char → List Char
  | '%' :: h1 :: h2 :: rest =>
      match hexVal h1, hexVal h2 with
      | some a, some b =>
          (if a * 16 + b < 128 then Char.ofNat (a * 16 + b) else '�') :: pctDecodeChars rest
      | _, _ => '%' :: pctDecodeChars (h1 :: h2 :: rest)
  | c :: rest => c :: pctDecodeChars rest
  | [] => []

/-- `decodeURIComponent` (see `pctDecodeChars`). -/
def decodeURIComponent (s : String) : String :=
  ⟨pctDecodeChars s.data⟩

/-! ### POSIX path arithmetic (`path.join`, `path.extname`) and the WHATWG
URL path normalization applied by `new URL(req.url, base).pathname`. -/

/-- Dot-segment resolution over already-split segments (the common core of
`path.normalize` for absolute paths and of WHATWG remove-dot-segments):
empty and `.` segments vanish, `..` pops, a `..` at the root is dropped. -/
def normSegments (segs : List String) : List String :=
  (segs.foldl
    (fun acc seg =>
      if seg = "" ∨ seg = "." then acc
      else if seg = ".." then acc.tail
      else seg :: acc)
    []).reverse

/-- `path.join(a, b)` for an absolute `a` (the only use in the claims'
routes): concatenate with `/` and normalize. Trailing-slash preservation is
not modelled (no claim serves a directory path). -/
def pathJoinAbs (a b : String) : String :=
  "/" ++ strJoinWith "/" (normSegments (jsSplit '/' (a ++ "/" ++ b)))

/-- `path.extname(p)`: from the last `/`-segment, the suffix from the last
dot, unless that dot starts the base name. -/
def extname (p : String) : String :=
  let base := ((jsSplit '/' p).getLastD "")
  let parts := jsSplit '.' base
  match parts with
  | [] => ""
  | [_] => ""
  | "" :: [_] => ""
  | _ => "." ++ parts.getLastD ""

/-- `new URL(raw, base).pathname` for a path-only request target: WHATWG
URL parsing resolves dot segments (literal or percent-encoded `%2e`) in the
path before the server ever sees it. Query/fragment splitting is not
modelled (no claim sends one). -/
def urlPathname (raw : String) : String :=
  let decodeDot (seg : String) : String :=
    let low := asciiLower seg
    if low = "%2e" then "." else if low = ".%2e" ∨ low = "%2e." ∨ low = "%2e%2e" then ".." else seg
  "/" ++ strJoinWith "/" (normSegments ((jsSplit '/' raw).map decodeDot))

/-! ### `JSON.stringify` / `JSON.parse` over the integer-restricted grammar -/

/-- Lower-case hex digit (as `JSON.stringify` emits in `\u` escapes). -/
def hexDigitLower (n : Nat) : Char :=
  if n < 10 then Char.ofNat ('0'.toNat + n) else Char.ofNat ('a'.toNat + n - 10)

/-- `JSON.stringify` escaping of one string character. -/
def escapeJsonChar (c : Char) : List Char :=
  if c = '"' then ['\\', '"']
  else if c = '\\' then ['\\', '\\']
  else if c = '\n' then ['\\', 'n']
  else if c = '\t' then ['\\', 't']
  else if c = '\r' then ['\\', 'r']
  else if c.toNat < 32 then
    ['\\', 'u', '0', '0', hexDigitLower (c.toNat / 16), hexDigitLower (c.toNat % 16)]
  else [c]

/-- A string literal as `JSON.stringify` renders it. -/
def jsonQuote (s : String) : String :=
  "\"" ++ ⟨(s.data.map escapeJsonChar).flatten⟩ ++ "\""

mutual
/-- `JSON.stringify` (no spacing argument, as in `createToken`). -/
def jsonStringify : Json → String
  | .null => "null"
  | .bool b => if b then "true" else "false"
  | .num n => toString n
  | .str s => jsonQuote s
  | .arr es => "[" ++ jsonStringifyElems es ++ "]"
  | .obj fs => "\x7b" ++ jsonStringifyFields fs ++ "\x7d"

/-- Array elements, comma-separated. -/
def jsonStringifyElems : List Json → String
  | [] => ""
  | [e] => jsonStringify e
  | e :: es => jsonStringify e ++ "," ++ jsonStringifyElems es

/-- Object members, comma-separated. -/
def jsonStringifyFields : List (String × Json) → String
  | [] => ""
  | [(k, v)] => jsonQuote k ++ ":" ++ jsonStringify v
  | (k, v) :: fs => jsonQuote k ++ ":" ++ jsonStringify v ++ "," ++ jsonStringifyFields fs
end

/-- JSON whitespace. -/
def jsonWs (c : Char) : Bool :=
  c = ' ' || c = '\n' || c = '\t' || c = '\r'

/-- Drop leading JSON whitespace. -/
def skipWs (cs : List Char) : List Char :=
  cs.dropWhile jsonWs

/-- The `\x7b` / `\x7d` delimiter characters. -/
def lbraceChar : Char := Char.ofNat 123

/-- See `lbraceChar`. -/
def rbraceChar : Char := Char.ofNat 125

/-- One simple JSON escape, `none` if invalid. -/
def jsonEscChar (c : Char) : Option Char :=
  if c = '"' then some '"'
  else if c = '\\' then some '\\'
  else if c = '/' then some '/'
  else if c = 'n' then some '\n'
  else if c = 't' then some '\t'
  else if c = 'r' then some '\r'
  else if c = 'b' then some (Char.ofNat 8)
  else if c = 'f' then some (Char.ofNat 12)
  else none

/-- Body of a JSON string literal after the opening quote: the decoded
characters plus the input after the closing quote. Surrogate pairs in `\u`
escapes are not reassembled (no claim exercises non-BMP text). -/
def parseJsonStringBody (cs : List Char) : Option (List Char × List Char) :=
  match cs with
  | [] => none
  | '"' :: rest => some ([], rest)
  | '\\' :: 'u' :: h1 :: h2 :: h3 :: h4 :: rest =>
      match hexVal h1, hexVal h2, hexVal h3, hexVal h4 with
      | some a, some b, some c, some d =>
          (parseJsonStringBody rest).map fun (s, r) =>
            (Char.ofNat (a * 4096 + b * 256 + c * 16 + d) :: s, r)
      | _, _, _, _ => none
  | '\\' :: e :: rest =>
      match jsonEscChar e with
      | some c => (parseJsonStringBody rest).map fun (s, r) => (c :: s, r)
      | none => none
  | c :: rest =>
      if c.toNat < 32 then none
      else (parseJsonStringBody rest).map fun (s, r) => (c :: s, r)

/-- A JSON number token, restricted to integers (a fraction or exponent
makes the model parser fail where `JSON.parse` would build a float; no
claim exercises float payloads). -/
def parseJsonNum (cs : List Char) : Option (Json × List Char) :=
  let (neg, cs1) := match cs with | '-' :: r => (true, r) | r => (false, r)
  let ds := cs1.takeWhile fun c => '0' ≤ c ∧ c ≤ '9'
  let rest := cs1.drop ds.length
  if ds = [] then none
  else if ds.length > 1 ∧ ds.headD '0' = '0' then none
  else
    match rest with
    | '.' :: _ => none
    | 'e' :: _ => none
    | 'E' :: _ => none
    | _ =>
        let n : Int := ds.foldl (fun acc c => acc * 10 + (c.toNat - '0'.toNat : Int)) 0
        some (.num (if neg then -n else n), rest)

mutual
/-- Recursive-descent JSON value parser, fuelled for totality. -/
def parseJsonVal : Nat → List Char → Option (Json × List Char)
  | 0, _ => none
  | fuel + 1, cs =>
    match skipWs cs with
    | 'n' :: 'u' :: 'l' :: 'l' :: r => some (.null, r)
    | 't' :: 'r' :: 'u' :: 'e' :: r => some (.bool true, r)
    | 'f' :: 'a' :: 'l' :: 's' :: 'e' :: r => some (.bool false, r)
    | '"' :: r => (parseJsonStringBody r).map fun (s, r2) => (.str ⟨s⟩, r2)
    | '[' :: r =>
        (match skipWs r with
         | ']' :: r2 => some (.arr [], r2)
         | r2 => (parseJsonElems fuel r2).map fun (es, r3) => (.arr es, r3))
    | c :: r =>
        if c = lbraceChar then
          match skipWs r with
          | c2 :: r2 =>
              if c2 = rbraceChar then some (.obj [], r2)
              else (parseJsonFields fuel (c2 :: r2)).map fun (fs, r3) => (.obj fs, r3)
          | [] => none
        else parseJsonNum (c :: r)
    | [] => none

/-- One-or-more array elements up to the closing bracket. -/
def parseJsonElems : Nat → List Char → Option (List Json × List Char)
  | 0, _ => none
  | fuel + 1, cs =>
    match parseJsonVal fuel cs with
    | none => none
    | some (v, rest) =>
        match skipWs rest with
        | ',' :: r => (parseJsonElems fuel r).map fun (es, r2) => (v :: es, r2)
        | ']' :: r => some ([v], r)
        | _ => none

/-- One-or-more object members up to the closing brace. -/
def parseJsonFields : Nat → List Char → Option (List (String × Json) × List Char)
  | 0, _ => none
  | fuel + 1, cs =>
    match skipWs cs with
    | '"' :: r =>
        match parseJsonStringBody r with
        | none => none
        | some (k, r2) =>
            match skipWs r2 with
            | ':' :: r3 =>
                match parseJsonVal fuel r3 with
                | none => none
                | some (v, r4) =>
                    match skipWs r4 with
                    | ',' :: r5 => (parseJsonFields fuel r5).map fun (fs, r6) => ((⟨k⟩, v) :: fs, r6)
                    | c :: r5 => if c = rbraceChar then some ([(⟨k⟩, v)], r5) else none
                    | [] => none
            | _ => none
    | _ => none
end

/-- `JSON.parse` (integer-number grammar; see `parseJsonNum`). -/
def jsonParse (s : String) : Option Json :=
  match parseJsonVal (2 * s.data.length + 2) s.data with
  | some (v, rest) => if (skipWs rest).isEmpty then some v else none
  | none => none

/-! ### Token auth (`signToken`, `createToken`, `verifyToken`,
`index.js` lines 902-930). The HMAC-SHA256 digest is an abstract function
`hmac : secret → message → raw digest bytes`. -/

/-- `signToken` (lines 902-904). -/
def signToken (hmac : String → String → List Nat) (secret payloadB64 : String) : String :=
  base64urlEncode (hmac secret payloadB64)

/-- `createToken` (lines 906-910). -/
def createToken (hmac : String → String → List Nat) (secret : String) (payload : Json) : String :=
  let payloadB64 := base64urlEncode (strBytes (jsonStringify payload))
  payloadB64 ++ "." ++ signToken hmac secret payloadB64

/-- Truthiness of a possibly-missing (`undefined`) JS value. -/
def truthyOpt : Option Json → Bool
  | none => false
  | some v => v.truthy

/-- `verifyToken` (lines 912-930). `now` is `Date.now()`. The buffer
length check plus `crypto.timingSafeEqual` amounts to equality of the two
signature strings. A payload that is not an object makes the field reads
yield `undefined` (or throw, caught by the surrounding `try`); either way
the result is `null`, which `Json.get` on a non-object reproduces. -/
def verifyToken (hmac : String → String → List Nat) (now : Int)
    (secret token : String) : Option Json :=
  if token = "" then none
  else
    match jsSplit '.' token with
    | [payloadB64, sig] =>
        let expected := signToken hmac secret payloadB64
        if sig ≠ expected then none
        else
          match jsonParse (bytesToStr (base64urlDecode payloadB64)) with
          | none => none
          | some payload =>
              let expRejects :=
                match payload.get "exp" with
                | none => false
                | some e =>
                    e.truthy && (match e.toNumber with
                                 | some v => decide (now > v)
                                 | none => false)
              if expRejects then none
              else if ¬ truthyOpt (payload.get "u") then none
              else some payload
    | _ => none

/-! ### Association-list stores (JS `Map` / object spread / file writes) -/

/-- Update the first binding of `k`, or append a new one (JS `Map.set`,
object spread with an overriding key, `fsp.writeFile` into a directory
listing). -/
def setKey {α : Type} (k : String) (v : α) : List (String × α) → List (String × α)
  | [] => [(k, v)]
  | (k', v') :: rest => if k' = k then (k, v) :: rest else (k', v') :: setKey k v rest

/-- `delete o[k]` on an object's fields. -/
def delKey {α : Type} (k : String) (m : List (String × α)) : List (String × α) :=
  m.filter fun kv => kv.1 ≠ k

/-! ### Error model shared by the quota accountant and the favorites
subsystem (`err.statusCode`-carrying `Error`s in the source). -/

/-- A failed `fetchUrlBuffer` promise: network error, non-2xx status,
byte-cap (413) or exhausted redirect budget (surfacing as the redirect
status). -/
structure FetchErr where
  statusCode : Option Nat
  msg : String
deriving Repr, BEq

/-- Errors a handler can throw. `quota` is the 507 error built by
`assertGalleryHasSpace` (its message carries the remaining headroom, kept
here as the `leftBytes` field rather than the formatted GB string).
`copyFail` is the `ENOENT` of `fsp.copyFile` on a missing snapshot source;
`badRequest` is a 400 JSON error response. -/
inductive SrvErr where
  | quota (statusCode : Nat) (leftBytes quotaBytes : Int)
  | fetchFail (e : FetchErr)
  | copyFail (src : String)
  | badRequest (msg : String)
deriving Repr, BEq

/-- Is this the quota-exceeded error? -/
def SrvErr.isQuota : SrvErr → Bool
  | .quota _ _ _ => true
  | _ => false

/-! ### Media materializer (`/api/favorites/add`, lines 1737-1855) -/

/-- Ambient request data for one materialize call: the authenticated user,
favorite type and id, the `Date.now()_<random>` file-name-stem supply
(abstracted as a sequence indexed by how many names were drawn), the remote
fetcher, and the user's existing on-disk files (for `/files/` snapshots),
keyed by path relative to the user root. -/
structure MatEnv where
  user : String
  ftype : String
  favId : String
  gen : Nat → String
  fetch : String → Except FetchErr (List Nat × String)
  userDisk : String → Option (List Nat)

/-- Mutable state of one materialize call: how many file names were drawn,
the two memo maps (lines 1752-1753), and the favorite directory's contents
(file name ↦ bytes). -/
structure MatState where
  counter : Nat
  dataUrlMap : List (String × String)
  remoteUrlMap : List (String × String)
  files : List (String × List Nat)
deriving Repr, BEq

/-- The all-empty starting state of one `/api/favorites/add` request. -/
def MatState.empty : MatState := ⟨0, [], [], []⟩

/-- The `file_uri` built for a freshly stored favorite file
(lines 1762, 1777, 1792). -/
def mkFavUri (env : MatEnv) (fileName : String) : String :=
  "/files/" ++ encodeURIComponent env.user ++ "/favorites/" ++ env.ftype ++ "/" ++
    encodeURIComponent env.favId ++ "/" ++ encodeURIComponent fileName

/-- `materializeDataUrl` (lines 1754-1765): memoized by the data-URL
string; an unparseable data-URL is returned unchanged (and not memoized);
otherwise the decoded bytes are written to a fresh file and the new
`file_uri` is memoized and returned. -/
def materializeDataUrl (env : MatEnv) (st : MatState) (dataUrl : String) :
    String × MatState :=
  match st.dataUrlMap.lookup dataUrl with
  | some uri => (uri, st)
  | none =>
      match parseDataUrl dataUrl with
      | none => (dataUrl, st)
      | some (mime, b64) =>
          let ext := mimeToExt mime
          let fileName := env.gen st.counter ++ "." ++ ext
          let fileUri := mkFavUri env fileName
          (fileUri,
           { counter := st.counter + 1,
             dataUrlMap := setKey dataUrl fileUri st.dataUrlMap,
             remoteUrlMap := st.remoteUrlMap,
             files := setKey fileName (base64Decode b64) st.files })

/-- `(String(contentType).split(';')[0] || '').trim().toLowerCase()`
(line 1771, and the same expression at line 1723). -/
def contentTypeMime (ct : String) : String :=
  asciiLower (jsTrim ((jsSplit ';' ct).headD ""))

/-- `materializeRemoteUrl` (lines 1767-1780): memoized by URL; a fetch
failure is NOT caught here (there is no `try` around the `await`), so it
propagates and aborts the whole traversal; a non-`image/*` `Content-Type`
returns the URL unchanged; otherwise the body is stored and the new
`file_uri` memoized. -/
def materializeRemoteUrl (env : MatEnv) (st : MatState) (remoteUrl : String) :
    MatState × Except SrvErr String :=
  match st.remoteUrlMap.lookup remoteUrl with
  | some uri => (st, .ok uri)
  | none =>
      if ¬ isHttpUrl remoteUrl then (st, .ok remoteUrl)
      else
        match env.fetch remoteUrl with
        | .error e => (st, .error (.fetchFail e))
        | .ok (buf, contentType) =>
            let mime := contentTypeMime contentType
            if ¬ strStarts mime "image/" then (st, .ok remoteUrl)
            else
              let ext := mimeToExt mime
              let fileName := env.gen st.counter ++ "." ++ ext
              let fileUri := mkFavUri env fileName
              ({ counter := st.counter + 1,
                 dataUrlMap := st.dataUrlMap,
                 remoteUrlMap := setKey remoteUrl fileUri st.remoteUrlMap,
                 files := setKey fileName buf st.files },
               .ok fileUri)

/-- `snapshotFileUri` (lines 1783-1793): a `/files/<user>/` URI is copied
(extension preserved) into the favorite directory; `copyFileIfExists`
calls `fsp.copyFile`, which throws `ENOENT` when the source is missing, so
a dangling reference aborts the traversal. Not memoized: each occurrence
copies a fresh file. -/
def snapshotFileUri (env : MatEnv) (st : MatState) (fileUri : String) :
    MatState × Except SrvErr String :=
  if ¬ strStarts fileUri ("/files/" ++ env.user ++ "/") then (st, .ok fileUri)
  else
    let rel := decodeURIComponent (strDrop fileUri ("/files/" ++ env.user ++ "/").length)
    match env.userDisk rel with
    | none => (st, .error (.copyFail rel))
    | some bytes =>
        let ext := extname rel
        let fileName := env.gen st.counter ++ ext
        ({ counter := st.counter + 1,
           dataUrlMap := st.dataUrlMap,
           remoteUrlMap := st.remoteUrlMap,
           files := setKey fileName bytes st.files },
         .ok (mkFavUri env fileName))

/-- First truthy of a `||` chain over possibly-missing JS values. -/
def jsOr (vs : List (Option Json)) : Option Json :=
  match vs with
  | [] => none
  | v :: rest => match v with
    | some j => if j.truthy then some j else jsOr rest
    | none => jsOr rest

/-- `convertInlineDataToDataUrl` (lines 1799-1805): from the first truthy
of `inline_data`/`inlineData`/`inLineData` with a truthy `data` field,
rebuild a synthetic data-URL from `mime_type`/`mimeType` (default
`image/png`) and `String(data)`. -/
def convertInlineDataToDataUrl (o : Json) : Option String :=
  match jsOr [o.get "inline_data", o.get "inlineData", o.get "inLineData"] with
  | none => none
  | some inline =>
      match inline.get "data" with
      | none => none
      | some d =>
          if ¬ d.truthy then none
          else
            let mime := (jsOr [inline.get "mime_type", inline.get "mimeType"]).getD
              (.str "image/png")
            some ("data:" ++ mime.toJsString ++ ";base64," ++ d.toJsString)

/-- The `mime` recomputed for the `file_data` replacement (line 1833):
`node.inline_data?.mime_type || node.inlineData?.mime_type ||
node.inlineData?.mimeType || node.inLineData?.mime_type ||
node.inLineData?.mimeType || 'image/png'` — note `inline_data?.mimeType`
is NOT consulted. -/
def fileDataMime (o : Json) : Json :=
  (jsOr
    [(o.get "inline_data").bind (·.get "mime_type"),
     (o.get "inlineData").bind (·.get "mime_type"),
     (o.get "inlineData").bind (·.get "mimeType"),
     (o.get "inLineData").bind (·.get "mime_type"),
     (o.get "inLineData").bind (·.get "mimeType")]).getD (.str "image/png")

/-- The packed-asset `mime`: `(typeof node.mime === 'string' && node.mime)
|| (typeof node.mime_type === 'string' && node.mime_type) || null`. -/
def assetMimeOf (o : Json) : Option String :=
  match o.getStr "mime" with
  | some s => if s ≠ "" then some s else
      match o.getStr "mime_type" with
      | some t => if t ≠ "" then some t else none
      | none => none
  | none =>
      match o.getStr "mime_type" with
      | some t => if t ≠ "" then some t else none
      | none => none

/-- The packed-asset guard at lines 1813-1822: `some (mime, data)` exactly
when the node is replaced in place (truthy image mime string, truthy string
`data`, no truthy `file_uri`/`fileUri`). -/
def packedAsset (node : Json) : Option (String × String) :=
  match assetMimeOf node, node.getStr "data" with
  | some mime, some data =>
      if strStarts mime "image/" ∧ data ≠ "" ∧
         ¬ truthyOpt (node.get "file_uri") ∧ ¬ truthyOpt (node.get "fileUri") then
        some (mime, data)
      else none
  | _, _ => none

mutual
/-- `traverseAndMaterialize` (lines 1807-1846). Objects are checked for
the packed-asset shape, then the provider inline-image shape, then
recursed into; arrays are recursed into; strings dispatch on
data-URL / own-`/files/` / remote-URL; other leaves pass through. A thrown
error stops the traversal, keeping the files already written. -/
def matNode (env : MatEnv) (st : MatState) : Json → MatState × Except SrvErr Json
  | .arr elems =>
      match matList env st elems with
      | (st1, .error e) => (st1, .error e)
      | (st1, .ok es) => (st1, .ok (.arr es))
  | .obj fields =>
      match packedAsset (Json.obj fields) with
      | some (mime, data) =>
          let (fileUri, st1) :=
            materializeDataUrl env st ("data:" ++ mime ++ ";base64," ++ data)
          (st1, .ok (.obj (delKey "data" (setKey "file_uri" (.str fileUri) fields))))
      | none =>
          match convertInlineDataToDataUrl (Json.obj fields) with
          | some dataUrl =>
              let (fileUri, st1) := materializeDataUrl env st dataUrl
              (st1, .ok (.obj [("file_data",
                .obj [("mime_type", fileDataMime (Json.obj fields)),
                      ("file_uri", .str fileUri)])]))
          | none =>
              match matFields env st fields with
              | (st1, .error e) => (st1, .error e)
              | (st1, .ok fs) => (st1, .ok (.obj fs))
  | .str s =>
      if strStarts s "data:image/" ∧ strIncludes s ";base64," then
        let (uri, st1) := materializeDataUrl env st s
        (st1, .ok (.str uri))
      else if strStarts s ("/files/" ++ env.user ++ "/") then
        match snapshotFileUri env st s with
        | (st1, .error e) => (st1, .error e)
        | (st1, .ok uri) => (st1, .ok (.str uri))
      else if isHttpUrl s then
        match materializeRemoteUrl env st s with
        | (st1, .error e) => (st1, .error e)
        | (st1, .ok uri) => (st1, .ok (.str uri))
      else (st, .ok (.str s))
  | other => (st, .ok other)

/-- Array elements, left to right, stopping at the first thrown error. -/
def matList (env : MatEnv) (st : MatState) : List Json → MatState × Except SrvErr (List Json)
  | [] => (st, .ok [])
  | x :: xs =>
      match matNode env st x with
      | (st1, .error e) => (st1, .error e)
      | (st1, .ok y) =>
          match matList env st1 xs with
          | (st2, .error e) => (st2, .error e)
          | (st2, .ok ys) => (st2, .ok (y :: ys))

/-- Object fields in order (`for (const k of Object.keys(node))`). -/
def matFields (env : MatEnv) (st : MatState) :
    List (String × Json) → MatState × Except SrvErr (List (String × Json))
  | [] => (st, .ok [])
  | (k, v) :: rest =>
      match matNode env st v with
      | (st1, .error e) => (st1, .error e)
      | (st1, .ok w) =>
          match matFields env st1 rest with
          | (st2, .error e) => (st2, .error e)
          | (st2, .ok ws) => (st2, .ok ((k, w) :: ws))
end

mutual
/-- No string leaf is an own-`/files/` reference or a remote URL, so a
traversal touches only the data-URL materializer (whose effects are the
memoized single-write-per-payload ones): node form. -/
def matSafeB (user : String) : Json → Bool
  | .str s => !(strStarts s ("/files/" ++ user ++ "/")) && !(isHttpUrl s)
  | .arr es => matSafeListB user es
  | .obj fs => matSafeFieldsB user fs
  | _ => true

/-- `matSafeB` over an array's elements. -/
def matSafeListB (user : String) : List Json → Bool
  | [] => true
  | x :: xs => matSafeB user x && matSafeListB user xs

/-- `matSafeB` over an object's field values. -/
def matSafeFieldsB (user : String) : List (String × Json) → Bool
  | [] => true
  | (_, v) :: xs => matSafeB user v && matSafeFieldsB user xs
end

/-- The bookkeeping invariant of a materialize call: the number of file
names drawn (= number of `fsp.writeFile` calls) equals the number of memo
entries, one per distinct materialized payload, and the data-URL memo has
no duplicate keys. -/
def MatInv (st : MatState) : Prop :=
  st.counter = st.dataUrlMap.length + st.remoteUrlMap.length ∧
  (st.dataUrlMap.map Prod.fst).Nodup

/-- The data-URL memo only grows: existing bindings survive a traversal. -/
def MapExtends (st st' : MatState) : Prop :=
  ∀ p u, st.dataUrlMap.lookup p = some u → st'.dataUrlMap.lookup p = some u

/-! ### Quota accountant (`index.js` lines 991-1110) -/

/-- `usage.json` (the `updatedAt` timestamp field is not modelled). -/
structure UsageRec where
  uploadsBytes : Int
  generatedBytes : Int
deriving Repr, BEq

/-- A directory: files with sizes and named subdirectories (so `thumbs/`
subdirectories are just entries of `subdirs`). A missing directory is the
empty `DirTree.node [] []` (`statDirBytesRecursive` returns 0 on ENOENT). -/
inductive DirTree where
  | node (files : List (String × Nat)) (subdirs : List (String × DirTree))

mutual
/-- `statDirBytesRecursive` (lines 1027-1050): recursive byte sum over
files and subdirectories. -/
def statDirBytesRecursive : DirTree → Nat
  | .node files subdirs => (files.map fun f => f.2).sum + statSubdirs subdirs

/-- Byte sum over a list of subdirectories. -/
def statSubdirs : List (String × DirTree) → Nat
  | [] => 0
  | (_, d) :: rest => statDirBytesRecursive d + statSubdirs rest
end

/-- A JS number argument as the quota functions inspect it:
`Number.isFinite` distinguishes finite values from `NaN`/`±Infinity`. -/
inductive JsNum where
  | num (n : Int)
  | nonFinite
deriving Repr, BEq

/-- `Number.isFinite(x) ? Math.max(0, x) : 0` (lines 1076, 1097). -/
def JsNum.clamp : JsNum → Int
  | .num n => max 0 n
  | .nonFinite => 0

/-- `Number.isFinite(x) ? x : 0` (line 1106). -/
def JsNum.orZero : JsNum → Int
  | .num n => n
  | .nonFinite => 0

/-- `DEFAULT_GALLERY_QUOTA_BYTES` (line 756): 1 GiB. -/
def DEFAULT_GALLERY_QUOTA_BYTES : Int := 1073741824

/-- Per-user storage-side state: admin flag (`meta.json`), quota override
(`quota.json`, `none` for a missing file or a non-finite value), the
persisted `usage.json` (`none` when deleted), and the two metered
directory trees. -/
structure GalleryState where
  isAdmin : Bool
  quotaOverride : Option Int
  usageFile : Option UsageRec
  uploadsDir : DirTree
  generatedDir : DirTree

/-- `readUsage` (lines 991-1000): a missing `usage.json` reads as zeros
(`Number(x || 0)` is the identity on the stored integers). -/
def readUsage (st : GalleryState) : UsageRec :=
  st.usageFile.getD ⟨0, 0⟩

/-- `getQuotaBytes` (lines 1062-1069): `none` means unlimited (admin);
a finite positive override wins, else the default. -/
def getQuotaBytes (st : GalleryState) : Option Int :=
  if st.isAdmin then none
  else
    match st.quotaOverride with
    | some q => if q > 0 then some q else some DEFAULT_GALLERY_QUOTA_BYTES
    | none => some DEFAULT_GALLERY_QUOTA_BYTES

/-- `recomputeUsage` (lines 1052-1060): rescan both directories
recursively and persist. -/
def recomputeUsage (st : GalleryState) : UsageRec × GalleryState :=
  let usage : UsageRec :=
    ⟨(statDirBytesRecursive st.uploadsDir : Int), (statDirBytesRecursive st.generatedDir : Int)⟩
  (usage, { st with usageFile := some usage })

/-- `assertGalleryHasSpace` (lines 1071-1092): other kinds are a no-op;
admins are unlimited; the cached check runs first, then one recompute
(persisted even when the check still fails), then the 507 error carrying
`max 0 (quota − used)`. The returned state reflects the recompute's
`writeUsage`. -/
def assertGalleryHasSpace (st : GalleryState) (kind : String) (incomingBytes : JsNum) :
    GalleryState × Option SrvErr :=
  if ¬ (kind = "uploads" ∨ kind = "generated") then (st, none)
  else
    match getQuotaBytes st with
    | none => (st, none)
    | some quotaBytes =>
        let inc := incomingBytes.clamp
        let usage := readUsage st
        let used := usage.uploadsBytes + usage.generatedBytes
        if used + inc ≤ quotaBytes then (st, none)
        else
          let (usage2, st2) := recomputeUsage st
          let used2 := usage2.uploadsBytes + usage2.generatedBytes
          if used2 + inc ≤ quotaBytes then (st2, none)
          else (st2, some (.quota 507 (max 0 (quotaBytes - used2)) quotaBytes))

/-- `addUsage` (lines 1094-1101). -/
def addUsage (st : GalleryState) (kind : String) (bytes : JsNum) : GalleryState :=
  if ¬ (kind = "uploads" ∨ kind = "generated") then st
  else
    let usage := readUsage st
    let b := bytes.clamp
    let usage' :=
      if kind = "uploads" then { usage with uploadsBytes := usage.uploadsBytes + b }
      else { usage with generatedBytes := usage.generatedBytes + b }
    { st with usageFile := some usage' }

/-- `changeUsage` (lines 1103-1110): signed delta, clamped at zero. -/
def changeUsage (st : GalleryState) (kind : String) (deltaBytes : JsNum) : GalleryState :=
  if ¬ (kind = "uploads" ∨ kind = "generated") then st
  else
    let usage := readUsage st
    let d := deltaBytes.orZero
    let usage' :=
      if kind = "uploads" then { usage with uploadsBytes := max 0 (usage.uploadsBytes + d) }
      else { usage with generatedBytes := max 0 (usage.generatedBytes + d) }
    { st with usageFile := some usage' }

/-- One usage-mutating event, for invariant reasoning over histories: the
two mutators with arbitrary (possibly non-finite) arguments, and a lazy
recompute against whatever the two directories hold at that moment. -/
inductive UsageOp where
  | add (kind : String) (bytes : JsNum)
  | change (kind : String) (delta : JsNum)
  | recompute (uploads generated : DirTree)

/-- Apply one event to the per-user state. -/
def applyUsageOp (st : GalleryState) : UsageOp → GalleryState
  | .add kind bytes => addUsage st kind bytes
  | .change kind delta => changeUsage st kind delta
  | .recompute up gen =>
      (recomputeUsage { st with uploadsDir := up, generatedDir := gen }).2

/-- A whole history of events, oldest first. -/
def runUsageOps (st : GalleryState) (ops : List UsageOp) : GalleryState :=
  ops.foldl applyUsageOp st

/-! ### Favorites store and the `/api/favorites/...` handlers -/

/-- Server-side state touched by the favorites subsystem: the per-user
gallery state (usage/quota), the favorites file tree (keyed by
`favorites/<type>/<favId>/<name>`), and the `<type>.json` lists. -/
structure ServerState where
  gallery : GalleryState
  favFiles : List (String × List Nat)
  favLists : List (String × List Json)

/-- `String(item.id || Date.now())` (line 1747): the favorite id. -/
def favIdOf (item : Json) (now : Nat) : String :=
  match jsOr [item.get "id"] with
  | some v => v.toJsString
  | none => toString now

/-- `POST /api/favorites/add` (lines 1737-1855) for an authenticated user:
validate `type` and `item`, derive the favorite id
(`String(item.id || Date.now())`), run the materializer from an empty
state, persist its file writes (they are on disk even when the traversal
then throws), and on success prepend the rewritten item to `<type>.json`.
The quota accountant is never consulted. -/
def favoritesAdd (st : ServerState) (user : String) (gen : Nat → String)
    (fetch : String → Except FetchErr (List Nat × String))
    (userDisk : String → Option (List Nat))
    (reqType : String) (item : Json) (now : Nat) :
    ServerState × Except SrvErr Json :=
  let type := asciiLower reqType
  if ¬ (type = "presets" ∨ type = "chats" ∨ type = "collections") then
    (st, .error (.badRequest "Invalid type"))
  else
    match item with
    | .obj _ | .arr _ =>
        let favoriteId := favIdOf item now
        let env : MatEnv :=
          ⟨user, type, favoriteId, gen, fetch, userDisk⟩
        match matNode env MatState.empty item with
        | (mst, .error e) =>
            let newFiles := mst.files.foldl
              (fun acc f => setKey ("favorites/" ++ type ++ "/" ++ favoriteId ++ "/" ++ f.1) f.2 acc)
              st.favFiles
            ({ st with favFiles := newFiles }, .error e)
        | (mst, .ok storedWithFiles) =>
            let list := (st.favLists.lookup type).getD []
            let newFiles := mst.files.foldl
              (fun acc f => setKey ("favorites/" ++ type ++ "/" ++ favoriteId ++ "/" ++ f.1) f.2 acc)
              st.favFiles
            let newLists := setKey type (storedWithFiles :: list) st.favLists
            ({ st with favFiles := newFiles, favLists := newLists }, .ok storedWithFiles)
    | _ => (st, .error (.badRequest "Invalid item"))

/-- The filter at line 1876: keep the elements whose stringified `id`
(`String(x?.id)`, `"undefined"` when missing) differs from the stringified
requested id (already a string: the path segment). -/
def favoritesRemove (list : List Json) (idSeg : String) : List Json :=
  list.filter fun x => Json.optToJsString (x.get "id") ≠ idSeg

/-- `DELETE /api/favorites/<type>/<id>` (lines 1867-1879), after auth:
validate the type (no `toLowerCase` here, unlike the GET route), read the
list (missing file reads as `[]`), filter, rewrite, answer `{ok: true}`. -/
def favoritesDelete (st : ServerState) (type idSeg : String) :
    ServerState × Except SrvErr Json :=
  if ¬ (type = "presets" ∨ type = "chats" ∨ type = "collections") then
    (st, .error (.badRequest "Invalid type"))
  else
    let list := (st.favLists.lookup type).getD []
    let next := favoritesRemove list idSeg
    ({ st with favLists := setKey type next st.favLists }, .ok (.obj [("ok", .bool true)]))

/-! ### `/files/` route (lines 1388-1397) -/

/-- The outcome of the `/files/` route up to the path check: an error
response, or the absolute path handed to the file-serving tail. -/
inductive FilesOutcome where
  | respText (status : Nat) (body : String)
  | serve (filePath : String)
deriving Repr, BEq, DecidableEq

/-- `ensureUserOwnsPath` (lines 1298-1300) on the token payload. -/
def ensureUserOwnsPath (auth : Json) (username : String) : Bool :=
  auth.get "u" == some (.str username) || auth.get "a" == some (.bool true)

/-- The `/files/` handler given the decoded `pathname` and the
`requireAuth` result (`none` = missing/invalid token): 401, 403, the 400
`Bad path` traversal rejection, or the file-serving tail. -/
def filesRoute (usersRoot : String) (auth : Option Json) (pathname : String) :
    FilesOutcome :=
  let parts := (jsSplit '/' pathname).filter fun s => s ≠ ""
  let username := (parts.drop 1).headD ""
  let rel := strJoinWith "/" (parts.drop 2)
  match auth with
  | none => .respText 401 "Unauthorized"
  | some payload =>
      if ¬ ensureUserOwnsPath payload username then .respText 403 "Forbidden"
      else
        let userRoot := pathJoinAbs usersRoot username
        let filePath := pathJoinAbs userRoot rel
        if ¬ strStarts filePath userRoot then .respText 400 "Bad path"
        else .serve filePath

/-- The full pipeline for a `GET /files/...` request line: WHATWG URL
normalization of the raw target (line 1373), `decodeURIComponent`
(line 1374), then the handler. -/
def filesRequest (usersRoot : String) (auth : Option Json) (rawTarget : String) :
    FilesOutcome :=
  filesRoute usersRoot auth (decodeURIComponent (urlPathname rawTarget))

/-! ## Theorems -/

/-- One usage event keeps both persisted counters non-negative. -/
theorem applyUsageOp_nonneg (st : GalleryState) (op : UsageOp)
    (hu : 0 ≤ (readUsage st).uploadsBytes) (hg : 0 ≤ (readUsage st).generatedBytes) :
    0 ≤ (readUsage (applyUsageOp st op)).uploadsBytes ∧
    0 ≤ (readUsage (applyUsageOp st op)).generatedBytes := by
  cases op with
  | add kind bytes =>
      simp only [applyUsageOp, addUsage]
      split
      · exact ⟨hu, hg⟩
      · have hb : 0 ≤ bytes.clamp := by
          cases bytes <;> simp [JsNum.clamp]
        simp only [readUsage] at hu hg
        split <;> simp [readUsage] <;> omega
  | change kind delta =>
      simp only [applyUsageOp, changeUsage]
      split
      · exact ⟨hu, hg⟩
      · simp only [readUsage] at hu hg
        split <;> simp [readUsage] <;> omega
  | recompute up gen =>
      simp only [applyUsageOp, recomputeUsage, readUsage]
      exact ⟨Int.ofNat_nonneg _, Int.ofNat_nonneg _⟩

/-- C10: starting from any state whose persisted usage record is
non-negative (the zero-initialized record in particular), every sequence of
`addUsage`/`changeUsage`/`recomputeUsage` events keeps `uploadsBytes ≥ 0`
and `generatedBytes ≥ 0`; moreover `addUsage` treats a non-finite byte
count as zero and a negative byte count as zero. -/
theorem C10_usage_never_negative :
    (∀ (st : GalleryState) (ops : List UsageOp),
      0 ≤ (readUsage st).uploadsBytes → 0 ≤ (readUsage st).generatedBytes →
      0 ≤ (readUsage (runUsageOps st ops)).uploadsBytes ∧
      0 ≤ (readUsage (runUsageOps st ops)).generatedBytes) ∧
    (∀ (st : GalleryState) (kind : String),
      addUsage st kind .nonFinite = addUsage st kind (.num 0)) ∧
    (∀ (st : GalleryState) (kind : String) (b : Int), b ≤ 0 →
      addUsage st kind (.num b) = addUsage st kind (.num 0)) := by
  refine ⟨?_, ?_, ?_⟩
  · intro st ops
    induction ops generalizing st with
    | nil => exact fun hu hg => ⟨hu, hg⟩
    | cons op rest ih =>
        intro hu hg
        have h := applyUsageOp_nonneg st op hu hg
        exact ih (applyUsageOp st op) h.1 h.2
  · intro st kind
    simp [addUsage, JsNum.clamp]
  · intro st kind b hb
    have : (JsNum.num b).clamp = (JsNum.num 0).clamp := by
      simp [JsNum.clamp]; omega
    simp [addUsage, this]

/-- Witness for C10 at a concrete history: a negative delta, a non-finite
add and a recompute on a zero-initialized record keep both counters ≥ 0. -/
theorem C10_usage_never_negative_witness :
    0 ≤ (readUsage ⟨false, none, some ⟨0, 0⟩, .node [] [], .node [] []⟩).uploadsBytes ∧
    0 ≤ (readUsage ⟨false, none, some ⟨0, 0⟩, .node [] [], .node [] []⟩).generatedBytes ∧
    (0 ≤ (readUsage (runUsageOps ⟨false, none, some ⟨0, 0⟩, .node [] [], .node [] []⟩
        [.change "uploads" (.num (-5)), .add "generated" .nonFinite,
         .recompute (.node [("a.png", 7)] []) (.node [] [])])).uploadsBytes ∧
     0 ≤ (readUsage (runUsageOps ⟨false, none, some ⟨0, 0⟩, .node [] [], .node [] []⟩
        [.change "uploads" (.num (-5)), .add "generated" .nonFinite,
         .recompute (.node [("a.png", 7)] []) (.node [] [])])).generatedBytes) :=
  ⟨by decide, by decide,
   C10_usage_never_negative.1 _ _ (by decide) (by decide)⟩

/-- C8: the favorites delete handler rewrites the stored list to exactly
the elements whose stringified `id` differs from the requested id segment,
always answers `{ok: true}`, and is a no-op on the list when nothing
matches. -/
theorem C8_remove_idempotent :
    ∀ (st : ServerState) (type idSeg : String),
      (type = "presets" ∨ type = "chats" ∨ type = "collections") →
      (favoritesDelete st type idSeg).1.favLists =
        setKey type
          (((st.favLists.lookup type).getD []).filter
            fun x => Json.optToJsString (x.get "id") ≠ idSeg)
          st.favLists ∧
      (favoritesDelete st type idSeg).2 = .ok (.obj [("ok", .bool true)]) ∧
      ((∀ x ∈ (st.favLists.lookup type).getD [],
          Json.optToJsString (x.get "id") ≠ idSeg) →
        favoritesRemove ((st.favLists.lookup type).getD []) idSeg =
          (st.favLists.lookup type).getD []) := by
  intro st type idSeg hty
  refine ⟨?_, ?_, ?_⟩
  · simp [favoritesDelete, hty, favoritesRemove]
  · simp [favoritesDelete, hty]
  · intro hnone
    unfold favoritesRemove
    apply List.filter_eq_self.mpr
    intro x hx
    simpa using hnone x hx

/-- Witness for C8: removing id `"9"` from a two-element `chats` list in
which no element has that id leaves the list unchanged and succeeds. -/
theorem C8_remove_idempotent_witness :
    ("chats" = "presets" ∨ "chats" = "chats" ∨ "chats" = "collections") ∧
    ((favoritesDelete ⟨⟨false, none, some ⟨0, 0⟩, .node [] [], .node [] []⟩, [],
        [("chats", [Json.obj [("id", Json.num 1)], Json.str "noid"])]⟩
        "chats" "9").1.favLists =
      setKey "chats"
        ((([Json.obj [("id", Json.num 1)], Json.str "noid"] : List Json)).filter
          fun x => Json.optToJsString (x.get "id") ≠ "9")
        [("chats", [Json.obj [("id", Json.num 1)], Json.str "noid"])] ∧
     (favoritesDelete ⟨⟨false, none, some ⟨0, 0⟩, .node [] [], .node [] []⟩, [],
        [("chats", [Json.obj [("id", Json.num 1)], Json.str "noid"])]⟩
        "chats" "9").2 = .ok (.obj [("ok", .bool true)]) ∧
     ((∀ x ∈ ((([("chats", [Json.obj [("id", Json.num 1)], Json.str "noid"])] :
          List (String × List Json)).lookup "chats").getD []),
         Json.optToJsString (x.get "id") ≠ "9") →
       favoritesRemove [Json.obj [("id", Json.num 1)], Json.str "noid"] "9" =
         [Json.obj [("id", Json.num 1)], Json.str "noid"])) := by
  refine ⟨by simp, ?_⟩
  have h := C8_remove_idempotent
    ⟨⟨false, none, some ⟨0, 0⟩, .node [] [], .node [] []⟩, [],
     [("chats", [Json.obj [("id", Json.num 1)], Json.str "noid"])]⟩
    "chats" "9" (by simp)
  simpa using h

/-- C4: for a non-admin user (quota `Q`) whose cached usage agrees with the
true on-disk sums, a check for `n ≥ 0` incoming bytes allows iff
`used + n ≤ Q` and otherwise recomputes once (to the same value, since the
cache is accurate) and throws the 507 quota error carrying the remaining
headroom `max 0 (Q − used)`; in particular at usage `Q − 10` an upload of
20 bytes is rejected (headroom 10), an upload of 5 bytes is allowed, and
`addUsage` then records `Q − 5`. -/
theorem C4_quota_enforcement :
    (∀ (st : GalleryState) (kind : String) (Q n : Int),
      (kind = "uploads" ∨ kind = "generated") →
      getQuotaBytes st = some Q →
      (readUsage st).uploadsBytes = (statDirBytesRecursive st.uploadsDir : Int) →
      (readUsage st).generatedBytes = (statDirBytesRecursive st.generatedDir : Int) →
      0 ≤ n →
      ((readUsage st).uploadsBytes + (readUsage st).generatedBytes + n ≤ Q →
        assertGalleryHasSpace st kind (.num n) = (st, none)) ∧
      (Q < (readUsage st).uploadsBytes + (readUsage st).generatedBytes + n →
        assertGalleryHasSpace st kind (.num n) =
          ((recomputeUsage st).2,
           some (.quota 507
             (max 0 (Q - ((readUsage st).uploadsBytes + (readUsage st).generatedBytes))) Q)))) ∧
    (∀ Q : Int, 10 ≤ Q →
      assertGalleryHasSpace ⟨false, some Q, some ⟨Q - 10, 0⟩,
          .node [("a.png", (Q - 10).toNat)] [], .node [] []⟩ "uploads" (.num 20) =
        ((recomputeUsage ⟨false, some Q, some ⟨Q - 10, 0⟩,
            .node [("a.png", (Q - 10).toNat)] [], .node [] []⟩).2,
         some (.quota 507 10 Q)) ∧
      assertGalleryHasSpace ⟨false, some Q, some ⟨Q - 10, 0⟩,
          .node [("a.png", (Q - 10).toNat)] [], .node [] []⟩ "uploads" (.num 5) =
        (⟨false, some Q, some ⟨Q - 10, 0⟩, .node [("a.png", (Q - 10).toNat)] [], .node [] []⟩,
         none) ∧
      readUsage (addUsage ⟨false, some Q, some ⟨Q - 10, 0⟩,
          .node [("a.png", (Q - 10).toNat)] [], .node [] []⟩ "uploads" (.num 5)) =
        ⟨Q - 5, 0⟩) := by
  constructor
  · intro st kind Q n hk hq hup hgen hn
    have hkk : ¬¬(kind = "uploads" ∨ kind = "generated") := not_not_intro hk
    have hinc : (JsNum.num n).clamp = n := by simp [JsNum.clamp]; omega
    constructor
    · intro hle
      simp only [assertGalleryHasSpace, if_neg hkk, hq, hinc]
      rw [if_pos (by omega)]
    · intro hgt
      simp only [assertGalleryHasSpace, if_neg hkk, hq, hinc]
      rw [if_neg (by omega)]
      simp only [recomputeUsage]
      rw [if_neg (by rw [← hup, ← hgen]; omega)]
      congr 2
      rw [← hup, ← hgen]
  · intro Q hQ
    have hquota : getQuotaBytes ⟨false, some Q, some ⟨Q - 10, 0⟩,
        .node [("a.png", (Q - 10).toNat)] [], .node [] []⟩ = some Q := by
      simp [getQuotaBytes]; omega
    refine ⟨?_, ?_, ?_⟩
    · simp only [assertGalleryHasSpace, hquota]
      rw [if_neg (by simp)]
      simp only [readUsage, Option.getD, JsNum.clamp]
      rw [if_neg (by simp; omega)]
      simp only [recomputeUsage]
      rw [if_neg (by simp [statDirBytesRecursive, statSubdirs, JsNum.clamp]; omega)]
      have h10 : (0 ⊔ (Q -
          ((statDirBytesRecursive (DirTree.node [("a.png", (Q - 10).toNat)] []) : Int) +
           (statDirBytesRecursive (DirTree.node [] []) : Int)))) = 10 := by
        simp [statDirBytesRecursive, statSubdirs]; omega
      rw [h10]
    · simp only [assertGalleryHasSpace, hquota]
      rw [if_neg (by simp)]
      simp only [readUsage, Option.getD, JsNum.clamp]
      rw [if_pos (by simp [JsNum.clamp]; omega)]
    · simp only [addUsage]
      rw [if_neg (by simp)]
      simp [readUsage, JsNum.clamp]
      omega

/-- Witness for C4 at `Q = 100`, usage 90 matching a 90-byte upload
directory: 20 bytes are rejected with headroom 10, 5 bytes are allowed,
and the recorded usage becomes 95. -/
theorem C4_quota_enforcement_witness :
    (("uploads" = "uploads" ∨ "uploads" = "generated") ∧
     getQuotaBytes ⟨false, some 100, some ⟨90, 0⟩, .node [("a.png", 90)] [], .node [] []⟩ =
       some 100 ∧
     (10 : Int) ≤ 100) ∧
    (assertGalleryHasSpace ⟨false, some 100, some ⟨90, 0⟩, .node [("a.png", 90)] [],
        .node [] []⟩ "uploads" (.num 20) =
      ((recomputeUsage ⟨false, some 100, some ⟨90, 0⟩, .node [("a.png", 90)] [],
          .node [] []⟩).2, some (.quota 507 10 100)) ∧
     assertGalleryHasSpace ⟨false, some 100, some ⟨90, 0⟩, .node [("a.png", 90)] [],
        .node [] []⟩ "uploads" (.num 5) =
      (⟨false, some 100, some ⟨90, 0⟩, .node [("a.png", 90)] [], .node [] []⟩, none) ∧
     readUsage (addUsage ⟨false, some 100, some ⟨90, 0⟩, .node [("a.png", 90)] [],
        .node [] []⟩ "uploads" (.num 5)) = ⟨95, 0⟩) := by
  refine ⟨⟨Or.inl rfl, by simp [getQuotaBytes], by norm_num⟩, ?_⟩
  have h := C4_quota_enforcement.2 100 (by norm_num)
  norm_num at h ⊢
  exact h

/-- The concrete state of the C5 counterexample: quota 100, `usage.json`
zeroed, 200 bytes of real files under `uploads/`. -/
def c5State : GalleryState :=
  ⟨false, some 100, some ⟨0, 0⟩, .node [("a.png", 200)] [], .node [] []⟩

/-- C5 is false as stated: with `usage.json` zeroed while 200 bytes of
files exist on disk (quota 100), the next quota check for 5 incoming bytes
allows WITHOUT recomputing — the state (hence `usage.json`) is returned
unchanged, still zeroed — even though the recomputed value (200) would
have denied (200 + 5 > 100). The recompute-then-decide behaviour the claim
asserts does not happen on the cached-check-passes path. -/
theorem C5_counterexample :
    assertGalleryHasSpace c5State "uploads" (.num 5) = (c5State, none) ∧
    (assertGalleryHasSpace c5State "uploads" (.num 5)).1.usageFile = some ⟨0, 0⟩ ∧
    statDirBytesRecursive c5State.uploadsDir = 200 ∧
    getQuotaBytes c5State = some 100 ∧
    ¬ ((200 : Int) + 0 + 5 ≤ 100) := by
  refine ⟨rfl, rfl, rfl, rfl, by norm_num⟩

/-- C5 amended: with `usage.json` deleted or zeroed, a quota check whose
incoming size passes against the (zero) cache allows without any
recomputation; only when the cached check fails (`n > Q`) does the check
recompute usage to the recursive byte sums of `uploads/` and `generated/`
(`thumbs/` subdirectories included, being ordinary subdirectories of the
recursive walk), persist it, and decide — necessarily denying — with the
recomputed value in the error's headroom. -/
theorem C5_amended :
    ∀ (st : GalleryState) (kind : String) (Q n : Int),
      (kind = "uploads" ∨ kind = "generated") →
      getQuotaBytes st = some Q →
      (st.usageFile = none ∨ st.usageFile = some ⟨0, 0⟩) →
      0 ≤ n →
      (n ≤ Q → assertGalleryHasSpace st kind (.num n) = (st, none)) ∧
      (Q < n →
        assertGalleryHasSpace st kind (.num n) =
          ({ st with usageFile := some ⟨(statDirBytesRecursive st.uploadsDir : Int),
                                        (statDirBytesRecursive st.generatedDir : Int)⟩ },
           some (.quota 507
             (max 0 (Q - ((statDirBytesRecursive st.uploadsDir : Int) +
                          (statDirBytesRecursive st.generatedDir : Int)))) Q))) := by
  intro st kind Q n hk hq hzero hn
  have hkk : ¬¬(kind = "uploads" ∨ kind = "generated") := not_not_intro hk
  have hinc : (JsNum.num n).clamp = n := by simp [JsNum.clamp]; omega
  have hread : readUsage st = ⟨0, 0⟩ := by
    cases hzero with
    | inl h => simp [readUsage, h]
    | inr h => simp [readUsage, h]
  constructor
  · intro hle
    simp only [assertGalleryHasSpace, if_neg hkk, hq, hinc, hread]
    rw [if_pos (by simp; omega)]
  · intro hgt
    simp only [assertGalleryHasSpace, if_neg hkk, hq, hinc, hread, recomputeUsage]
    rw [if_neg (by simp; omega)]
    rw [if_neg (by
      have h1 : (0 : Int) ≤ (statDirBytesRecursive st.uploadsDir : Int) := Int.ofNat_nonneg _
      have h2 : (0 : Int) ≤ (statDirBytesRecursive st.generatedDir : Int) := Int.ofNat_nonneg _
      simp
      omega)]

/-- Witness for the amended C5: quota 100, zeroed usage, a 150-byte
incoming write against a disk holding 200 bytes (60 of them in a
`thumbs/` subdirectory) recomputes to 200, persists it and denies with
headroom 0. -/
theorem C5_amended_witness :
    (("uploads" = "uploads" ∨ "uploads" = "generated") ∧
     getQuotaBytes ⟨false, some 100, some ⟨0, 0⟩,
        .node [("a.png", 140)] [("thumbs", .node [("a.webp", 60)] [])], .node [] []⟩ =
       some 100 ∧
     (0 : Int) ≤ 150 ∧ (100 : Int) < 150) ∧
    assertGalleryHasSpace ⟨false, some 100, some ⟨0, 0⟩,
        .node [("a.png", 140)] [("thumbs", .node [("a.webp", 60)] [])], .node [] []⟩
        "uploads" (.num 150) =
      ({ isAdmin := false, quotaOverride := some 100, usageFile := some ⟨200, 0⟩,
         uploadsDir := .node [("a.png", 140)] [("thumbs", .node [("a.webp", 60)] [])],
         generatedDir := .node [] [] }, some (.quota 507 0 100)) := by
  refine ⟨⟨Or.inl rfl, by simp [getQuotaBytes], by norm_num, by norm_num⟩, ?_⟩
  have h := (C5_amended ⟨false, some 100, some ⟨0, 0⟩,
      .node [("a.png", 140)] [("thumbs", .node [("a.webp", 60)] [])], .node [] []⟩
      "uploads" 100 150 (Or.inl rfl) (by simp [getQuotaBytes]) (Or.inr rfl)
      (by norm_num)).2 (by norm_num)
  rw [h]
  rfl

/-- C6 is false as stated: for the literal request
`GET /files/alice/../bob/secret.png`, WHATWG URL parsing removes the dot
segments before the handler runs, so the handler sees
`/files/bob/secret.png`; with `alice` herself authenticated (the case the
claim most directly asserts) the response is `403 Forbidden` from the
ownership check on `bob`, not 400. -/
theorem C6_counterexample :
    filesRequest "/data/users" (some (.obj [("u", .str "alice"), ("a", .bool false)]))
        "/files/alice/../bob/secret.png" = .respText 403 "Forbidden" ∧
    FilesOutcome.respText 403 "Forbidden" ≠ .respText 400 "Bad path" := by
  exact ⟨rfl, by decide⟩

/-- C6 amended: the literal traversal request is URL-normalized to
`/files/bob/secret.png` and answered by `bob`'s ownership rules; a decoded
pathname that still carries `..` when it reaches the handler (only
reachable via percent-encoded slashes) is answered 401 without a token,
400 (`Bad path`) when the requester is `alice` herself or an admin, and
403 otherwise. -/
theorem C6_amended :
    (∀ auth : Option Json,
      filesRequest "/data/users" auth "/files/alice/../bob/secret.png" =
        filesRoute "/data/users" auth "/files/bob/secret.png") ∧
    (∀ auth : Option Json,
      filesRoute "/data/users" auth "/files/alice/../bob/secret.png" =
        match auth with
        | none => .respText 401 "Unauthorized"
        | some payload =>
            if ensureUserOwnsPath payload "alice" then .respText 400 "Bad path"
            else .respText 403 "Forbidden") := by
  constructor
  · intro auth
    rfl
  · intro auth
    cases auth with
    | none => rfl
    | some payload =>
        show (if ¬ ensureUserOwnsPath payload "alice" = true then
                FilesOutcome.respText 403 "Forbidden"
              else FilesOutcome.respText 400 "Bad path") =
             (if ensureUserOwnsPath payload "alice" = true then
                FilesOutcome.respText 400 "Bad path"
              else FilesOutcome.respText 403 "Forbidden")
        cases h : ensureUserOwnsPath payload "alice" with
        | false => simp [h]
        | true => simp [h]

/-- A snapshot copy can only throw the `ENOENT` copy error. -/
theorem snapshot_no_quota (env : MatEnv) (st : MatState) (s : String) (e : SrvErr)
    (h : (snapshotFileUri env st s).2 = .error e) : e.isQuota = false := by
  unfold snapshotFileUri at h
  split at h
  · simp at h
  · dsimp only at h
    split at h
    · simp at h; simp [← h, SrvErr.isQuota]
    · simp at h

/-- A remote materialization can only throw the propagated fetch error. -/
theorem remote_no_quota (env : MatEnv) (st : MatState) (s : String) (e : SrvErr)
    (h : (materializeRemoteUrl env st s).2 = .error e) : e.isQuota = false := by
  unfold materializeRemoteUrl at h
  split at h
  · simp at h
  · split at h
    · simp at h
    · split at h
      · simp at h; simp [← h, SrvErr.isQuota]
      · dsimp only at h
        split at h <;> simp at h

mutual
/-- The materializer never throws the quota error (it never calls
`assertGalleryHasSpace`): node case. -/
theorem matNode_no_quota (env : MatEnv) : ∀ (j : Json) (st : MatState) (e : SrvErr),
    (matNode env st j).2 = .error e → e.isQuota = false
  | .arr elems => fun st e h => by
      rcases heq : matList env st elems with ⟨st1, r1⟩
      simp only [matNode, heq] at h
      cases r1 with
      | error e1 =>
          simp at h
          exact h ▸ matList_no_quota env elems st e1 (by rw [heq])
      | ok v => simp at h
  | .obj fields => fun st e h => by
      simp only [matNode] at h
      split at h
      · simp at h
      · split at h
        · simp at h
        · rcases heq : matFields env st fields with ⟨st1, r1⟩
          rw [heq] at h
          cases r1 with
          | error e1 =>
              simp at h
              exact h ▸ matFields_no_quota env fields st e1 (by rw [heq])
          | ok fs => simp at h
  | .str s => fun st e h => by
      simp only [matNode] at h
      split at h
      · simp at h
      · split at h
        · rcases heq : snapshotFileUri env st s with ⟨st1, r1⟩
          rw [heq] at h
          cases r1 with
          | error e1 =>
              simp at h
              exact h ▸ snapshot_no_quota env st s e1 (by rw [heq])
          | ok v => simp at h
        · split at h
          · rcases heq : materializeRemoteUrl env st s with ⟨st1, r1⟩
            rw [heq] at h
            cases r1 with
            | error e1 =>
                simp at h
                exact h ▸ remote_no_quota env st s e1 (by rw [heq])
            | ok v => simp at h
          · simp at h
  | .null => fun st e h => by simp [matNode] at h
  | .bool b => fun st e h => by simp [matNode] at h
  | .num n => fun st e h => by simp [matNode] at h

/-- The materializer never throws the quota error: array case. -/
theorem matList_no_quota (env : MatEnv) : ∀ (l : List Json) (st : MatState) (e : SrvErr),
    (matList env st l).2 = .error e → e.isQuota = false
  | [] => fun st e h => by simp [matList] at h
  | x :: xs => fun st e h => by
      rcases heq : matNode env st x with ⟨st1, r1⟩
      simp only [matList, heq] at h
      cases r1 with
      | error e1 =>
          simp at h
          exact h ▸ matNode_no_quota env x st e1 (by rw [heq])
      | ok v =>
          dsimp only at h
          rcases heq2 : matList env st1 xs with ⟨st2, r2⟩
          rw [heq2] at h
          cases r2 with
          | error e2 =>
              simp at h
              exact h ▸ matList_no_quota env xs st1 e2 (by rw [heq2])
          | ok vs => simp at h

/-- The materializer never throws the quota error: object-fields case. -/
theorem matFields_no_quota (env : MatEnv) :
    ∀ (l : List (String × Json)) (st : MatState) (e : SrvErr),
    (matFields env st l).2 = .error e → e.isQuota = false
  | [] => fun st e h => by simp [matFields] at h
  | (k, v) :: xs => fun st e h => by
      rcases heq : matNode env st v with ⟨st1, r1⟩
      simp only [matFields, heq] at h
      cases r1 with
      | error e1 =>
          simp at h
          exact h ▸ matNode_no_quota env v st e1 (by rw [heq])
      | ok w =>
          dsimp only at h
          rcases heq2 : matFields env st1 xs with ⟨st2, r2⟩
          rw [heq2] at h
          cases r2 with
          | error e2 =>
              simp at h
              exact h ▸ matFields_no_quota env xs st1 e2 (by rw [heq2])
          | ok ws => simp at h
end

/-- C9: a favorites save never consults the quota accountant and never
touches the usage record: the gallery state (which holds `usage.json`) is
returned unchanged whether the request succeeds or aborts, and any thrown
error is a materializer fetch/copy error or a validation error — never the
507 quota error built by `assertGalleryHasSpace`. -/
theorem C9_favorites_unmetered :
    ∀ (st : ServerState) (user : String) (gen : Nat → String)
      (fetch : String → Except FetchErr (List Nat × String))
      (userDisk : String → Option (List Nat)) (reqType : String) (item : Json) (now : Nat),
      (favoritesAdd st user gen fetch userDisk reqType item now).1.gallery = st.gallery ∧
      (∀ e, (favoritesAdd st user gen fetch userDisk reqType item now).2 = .error e →
        e.isQuota = false) := by
  intro st user gen fetch userDisk reqType item now
  constructor
  · unfold favoritesAdd
    dsimp only
    split
    · rfl
    · split
      · split <;> rfl
      · split <;> rfl
      · rfl
  · intro e he
    unfold favoritesAdd at he
    dsimp only at he
    split at he
    · simp at he
      simp [← he, SrvErr.isQuota]
    · split at he
      · split at he
        · rename_i mst e1 heq
          simp at he
          exact he ▸ matNode_no_quota _ _ MatState.empty e1 (by rw [heq])
        · simp at he
      · split at he
        · rename_i mst e1 heq
          simp at he
          exact he ▸ matNode_no_quota _ _ MatState.empty e1 (by rw [heq])
        · simp at he
      · simp at he
        simp [← he, SrvErr.isQuota]

/-- Witness for C9: a concrete save whose remote fetch fails still leaves
the gallery untouched, and the resulting error is not a quota error. -/
theorem C9_favorites_unmetered_witness :
    (favoritesAdd ⟨⟨false, none, some ⟨0, 0⟩, .node [] [], .node [] []⟩, [], []⟩ "alice"
        (fun n => "f" ++ toString n) (fun _ => .error ⟨none, "net"⟩) (fun _ => none)
        "chats" (.obj [("img", .str "http://x/y.png")]) 7).1.gallery =
      ⟨false, none, some ⟨0, 0⟩, .node [] [], .node [] []⟩ ∧
    (favoritesAdd ⟨⟨false, none, some ⟨0, 0⟩, .node [] [], .node [] []⟩, [], []⟩ "alice"
        (fun n => "f" ++ toString n) (fun _ => .error ⟨none, "net"⟩) (fun _ => none)
        "chats" (.obj [("img", .str "http://x/y.png")]) 7).2 =
      .error (.fetchFail ⟨none, "net"⟩) ∧
    SrvErr.isQuota (.fetchFail ⟨none, "net"⟩) = false :=
  ⟨(C9_favorites_unmetered ⟨⟨false, none, some ⟨0, 0⟩, .node [] [], .node [] []⟩, [], []⟩
      "alice" (fun n => "f" ++ toString n) (fun _ => .error ⟨none, "net"⟩) (fun _ => none)
      "chats" (.obj [("img", .str "http://x/y.png")]) 7).1,
   rfl,
   (C9_favorites_unmetered ⟨⟨false, none, some ⟨0, 0⟩, .node [] [], .node [] []⟩, [], []⟩
      "alice" (fun n => "f" ++ toString n) (fun _ => .error ⟨none, "net"⟩) (fun _ => none)
      "chats" (.obj [("img", .str "http://x/y.png")]) 7).2 _ rfl⟩

/-- `materializeRemoteUrl` on an unmemoized URL whose fetch fails: the
error propagates (no `try` in the source), state unchanged. -/
theorem remote_fetchError_propagates (env : MatEnv) (st : MatState) (url : String)
    (e : FetchErr) (hf : env.fetch url = .error e)
    (hm : st.remoteUrlMap.lookup url = none) (hh : isHttpUrl url = true) :
    materializeRemoteUrl env st url = (st, .error (.fetchFail e)) := by
  unfold materializeRemoteUrl
  rw [hm]
  dsimp only
  rw [if_neg (by simp [hh]), hf]

/-- `materializeRemoteUrl` on an unmemoized URL fetched with a non-image
`Content-Type`: URL returned unchanged, state unchanged, no error. -/
theorem remote_nonImage_unchanged (env : MatEnv) (st : MatState) (url : String)
    (buf : List Nat) (ct : String) (hf : env.fetch url = .ok (buf, ct))
    (hni : strStarts (contentTypeMime ct) "image/" = false)
    (hm : st.remoteUrlMap.lookup url = none) :
    materializeRemoteUrl env st url = (st, .ok url) := by
  unfold materializeRemoteUrl
  rw [hm]
  dsimp only
  split
  · rfl
  · rw [hf]
    dsimp only
    rw [if_pos (by simp [hni])]

/-- String dispatch reaches the remote materializer and propagates its
fetch error. -/
theorem matNode_remote_fetchError (env : MatEnv) (st : MatState) (url : String)
    (e : FetchErr)
    (hd : strStarts url "data:image/" = false)
    (hfp : strStarts url ("/files/" ++ env.user ++ "/") = false)
    (hh : isHttpUrl url = true)
    (hf : env.fetch url = .error e)
    (hm : st.remoteUrlMap.lookup url = none) :
    matNode env st (.str url) = (st, .error (.fetchFail e)) := by
  simp only [matNode]
  rw [if_neg (by simp [hd]), if_neg (by simp [hfp]), if_pos hh,
    remote_fetchError_propagates env st url e hf hm hh]

/-- String dispatch reaches the remote materializer and leaves a
non-image URL unchanged. -/
theorem matNode_remote_nonImage (env : MatEnv) (st : MatState) (url : String)
    (buf : List Nat) (ct : String)
    (hd : strStarts url "data:image/" = false)
    (hfp : strStarts url ("/files/" ++ env.user ++ "/") = false)
    (hh : isHttpUrl url = true)
    (hf : env.fetch url = .ok (buf, ct))
    (hni : strStarts (contentTypeMime ct) "image/" = false)
    (hm : st.remoteUrlMap.lookup url = none) :
    matNode env st (.str url) = (st, .ok (.str url)) := by
  simp only [matNode]
  rw [if_neg (by simp [hd]), if_neg (by simp [hfp]), if_pos hh,
    remote_nonImage_unchanged env st url buf ct hf hni hm]

/-- The `/api/favorites/add` request around one remote-URL string leaf:
a fetch error makes the whole request fail with that error and saves
nothing; a non-image fetch leaves the string unchanged and the save
succeeds. -/
theorem favoritesAdd_remote (st : ServerState) (user : String) (gen : Nat → String)
    (fetch : String → Except FetchErr (List Nat × String))
    (userDisk : String → Option (List Nat)) (url : String) (now : Nat)
    (hd : strStarts url "data:image/" = false)
    (hfp : strStarts url ("/files/" ++ user ++ "/") = false)
    (hh : isHttpUrl url = true) :
    (∀ e, fetch url = .error e →
      favoritesAdd st user gen fetch userDisk "chats" (.obj [("img", .str url)]) now =
        (st, .error (.fetchFail e))) ∧
    (∀ buf ct, fetch url = .ok (buf, ct) →
      strStarts (contentTypeMime ct) "image/" = false →
      favoritesAdd st user gen fetch userDisk "chats" (.obj [("img", .str url)]) now =
        ({ st with favLists := setKey "chats" ((Json.obj [("img", .str url)]) :: (st.favLists.lookup "chats").getD []) st.favLists },
         .ok (.obj [("img", .str url)]))) := by
  have hpa : packedAsset (.obj [("img", .str url)]) = none := rfl
  have hcd : convertInlineDataToDataUrl (.obj [("img", .str url)]) = none := rfl
  constructor
  · intro e hf
    have hstr := matNode_remote_fetchError
      ⟨user, "chats", favIdOf (.obj [("img", .str url)]) now, gen, fetch, userDisk⟩
      MatState.empty url e hd hfp hh hf rfl
    have hmf : matFields ⟨user, "chats", favIdOf (.obj [("img", .str url)]) now, gen, fetch, userDisk⟩
        MatState.empty [("img", .str url)] = (MatState.empty, .error (.fetchFail e)) := by
      simp only [matFields, hstr]
    have hmn : matNode ⟨user, "chats", favIdOf (.obj [("img", .str url)]) now, gen, fetch, userDisk⟩
        MatState.empty (.obj [("img", .str url)]) = (MatState.empty, .error (.fetchFail e)) := by
      simp only [matNode, hpa, hcd, hmf]
    unfold favoritesAdd
    dsimp only
    rw [show asciiLower "chats" = "chats" from rfl, if_neg (by decide), hmn]
    rfl
  · intro buf ct hf hni
    have hstr := matNode_remote_nonImage
      ⟨user, "chats", favIdOf (.obj [("img", .str url)]) now, gen, fetch, userDisk⟩
      MatState.empty url buf ct hd hfp hh hf hni rfl
    have hmf : matFields ⟨user, "chats", favIdOf (.obj [("img", .str url)]) now, gen, fetch, userDisk⟩
        MatState.empty [("img", .str url)] = (MatState.empty, .ok [("img", .str url)]) := by
      simp only [matFields, hstr]
    have hmn : matNode ⟨user, "chats", favIdOf (.obj [("img", .str url)]) now, gen, fetch, userDisk⟩
        MatState.empty (.obj [("img", .str url)]) = (MatState.empty, .ok (.obj [("img", .str url)])) := by
      simp only [matNode, hpa, hcd, hmf]
    unfold favoritesAdd
    dsimp only
    rw [show asciiLower "chats" = "chats" from rfl, if_neg (by decide), hmn]
    rfl

/-- C3 is false as stated: a favorite containing the remote URL string
`http://img.example/cat.png` whose fetch fails (network error) makes the
whole `/api/favorites/add` request FAIL — `materializeRemoteUrl` has no
`try`/`catch`, so the rejection propagates to the route's error boundary —
and the favorite is NOT saved (`chats.json` still empty), contradicting
"the request still succeeds, saving the rest of the favorite". -/
theorem C3_counterexample :
    (favoritesAdd ⟨⟨false, none, some ⟨0, 0⟩, .node [] [], .node [] []⟩, [], []⟩ "alice"
        (fun n => "f" ++ toString n) (fun _ => .error ⟨none, "socket hang up"⟩)
        (fun _ => none) "chats"
        (.obj [("id", .num 1), ("img", .str "http://img.example/cat.png")]) 7).2 =
      .error (.fetchFail ⟨none, "socket hang up"⟩) ∧
    (favoritesAdd ⟨⟨false, none, some ⟨0, 0⟩, .node [] [], .node [] []⟩, [], []⟩ "alice"
        (fun n => "f" ++ toString n) (fun _ => .error ⟨none, "socket hang up"⟩)
        (fun _ => none) "chats"
        (.obj [("id", .num 1), ("img", .str "http://img.example/cat.png")]) 7).1.favLists =
      [] :=
  ⟨rfl, rfl⟩

/-- C3 amended: only the non-image `Content-Type` failure is swallowed —
the string leaf is left unchanged, the state untouched, and the favorite
save succeeds with the URL still in place; every other fetch failure
(network/HTTP error, byte cap, redirect cap — all surfacing as a rejected
`fetchUrlBuffer` promise) propagates uncaught out of the materializer, so
the whole `/api/favorites/add` request fails and nothing is saved. -/
theorem C3_remote_failure_amended :
    (∀ (env : MatEnv) (st : MatState) (url : String) (buf : List Nat) (ct : String),
      env.fetch url = .ok (buf, ct) →
      strStarts (contentTypeMime ct) "image/" = false →
      st.remoteUrlMap.lookup url = none →
      materializeRemoteUrl env st url = (st, .ok url)) ∧
    (∀ (env : MatEnv) (st : MatState) (url : String) (e : FetchErr),
      env.fetch url = .error e →
      st.remoteUrlMap.lookup url = none →
      isHttpUrl url = true →
      materializeRemoteUrl env st url = (st, .error (.fetchFail e))) ∧
    (∀ (st : ServerState) (user : String) (gen : Nat → String)
       (fetch : String → Except FetchErr (List Nat × String))
       (userDisk : String → Option (List Nat)) (url : String) (now : Nat),
      strStarts url "data:image/" = false →
      strStarts url ("/files/" ++ user ++ "/") = false →
      isHttpUrl url = true →
      (∀ e, fetch url = .error e →
        favoritesAdd st user gen fetch userDisk "chats" (.obj [("img", .str url)]) now =
          (st, .error (.fetchFail e))) ∧
      (∀ buf ct, fetch url = .ok (buf, ct) →
        strStarts (contentTypeMime ct) "image/" = false →
        favoritesAdd st user gen fetch userDisk "chats" (.obj [("img", .str url)]) now =
          ({ st with favLists := setKey "chats" ((Json.obj [("img", .str url)]) :: (st.favLists.lookup "chats").getD []) st.favLists },
           .ok (.obj [("img", .str url)])))) :=
  ⟨fun env st url buf ct hf hni hm => remote_nonImage_unchanged env st url buf ct hf hni hm,
   fun env st url e hf hm hh => remote_fetchError_propagates env st url e hf hm hh,
   fun st user gen fetch userDisk url now hd hfp hh =>
     favoritesAdd_remote st user gen fetch userDisk url now hd hfp hh⟩

/-- Witness for the amended C3 at concrete inputs: an HTML response leaves
the URL unchanged and the save succeeds; a failing fetch fails the save. -/
theorem C3_remote_failure_amended_witness :
    ((⟨"alice", "chats", "1", (fun n => "f" ++ toString n),
        (fun _ => .ok ([1], "text/html; charset=utf8")), (fun _ => none)⟩ :
          MatEnv).fetch "http://x/y.png" = .ok ([1], "text/html; charset=utf8") ∧
     strStarts (contentTypeMime "text/html; charset=utf8") "image/" = false ∧
     MatState.empty.remoteUrlMap.lookup "http://x/y.png" = none) ∧
    materializeRemoteUrl ⟨"alice", "chats", "1", (fun n => "f" ++ toString n),
        (fun _ => .ok ([1], "text/html; charset=utf8")), (fun _ => none)⟩
        MatState.empty "http://x/y.png" = (MatState.empty, .ok "http://x/y.png") ∧
    favoritesAdd ⟨⟨false, none, some ⟨0, 0⟩, .node [] [], .node [] []⟩, [], []⟩ "alice"
        (fun n => "f" ++ toString n) (fun _ => .error ⟨some 413, "Download too large"⟩)
        (fun _ => none) "chats" (.obj [("img", .str "http://x/y.png")]) 7 =
      (⟨⟨false, none, some ⟨0, 0⟩, .node [] [], .node [] []⟩, [], []⟩,
       .error (.fetchFail ⟨some 413, "Download too large"⟩)) := by
  refine ⟨⟨rfl, rfl, rfl⟩, ?_, ?_⟩
  · exact C3_remote_failure_amended.1 _ MatState.empty "http://x/y.png" [1]
      "text/html; charset=utf8" rfl rfl rfl
  · exact ((C3_remote_failure_amended.2.2 _ "alice" (fun n => "f" ++ toString n)
      (fun _ => .error ⟨some 413, "Download too large"⟩) (fun _ => none)
      "http://x/y.png" 7 rfl rfl rfl).1 ⟨some 413, "Download too large"⟩ rfl)

/-! ### Token-verification lemmas (C7) -/

/-- `Char.ofNat` round-trips on BMP code points. -/
theorem charOfNatToNat (n : Nat) (h : n < 55296) : (Char.ofNat n).toNat = n := by
  have hv : n.isValidChar := Or.inl h
  simp only [Char.ofNat, hv, reduceDIte, Char.ofNatAux]
  rfl

/-- The base64 alphabet contains neither `.` (46) nor `\n` (10) nor `;`
(59). -/
theorem b64Char_ne (n : Nat) (c : Char) (hc : c.toNat = 46 ∨ c.toNat = 10 ∨ c.toNat = 59) :
    b64Char n ≠ c := by
  unfold b64Char
  split_ifs with h1 h2 h3 h4 <;> intro h <;> have h5 := congrArg Char.toNat h
  · rw [charOfNatToNat _ (by rw [show 'A'.toNat = 65 from rfl]; omega),
      show 'A'.toNat = 65 from rfl] at h5
    omega
  · rw [charOfNatToNat _ (by rw [show 'a'.toNat = 97 from rfl]; omega),
      show 'a'.toNat = 97 from rfl] at h5
    omega
  · rw [charOfNatToNat _ (by rw [show '0'.toNat = 48 from rfl]; omega),
      show '0'.toNat = 48 from rfl] at h5
    omega
  · rw [show '+'.toNat = 43 from rfl] at h5; omega
  · rw [show '/'.toNat = 47 from rfl] at h5; omega

/-- Characters of a base64 encoding are alphabet characters or padding. -/
theorem mem_b64EncodeChars : ∀ (bs : List Nat) (c : Char), c ∈ b64EncodeChars bs →
    (∃ n, c = b64Char n) ∨ c = '='
  | [] => fun c hc => by simp [b64EncodeChars] at hc
  | [a] => fun c hc => by
      simp [b64EncodeChars] at hc
      rcases hc with h | h | h
      · exact Or.inl ⟨_, h⟩
      · exact Or.inl ⟨_, h⟩
      · exact Or.inr h
  | [a, b] => fun c hc => by
      simp [b64EncodeChars] at hc
      rcases hc with h | h | h | h
      · exact Or.inl ⟨_, h⟩
      · exact Or.inl ⟨_, h⟩
      · exact Or.inl ⟨_, h⟩
      · exact Or.inr h
  | a :: b :: c2 :: rest => fun c hc => by
      simp only [b64EncodeChars, List.mem_cons] at hc
      rcases hc with h | h | h | h | h
      · exact Or.inl ⟨_, h⟩
      · exact Or.inl ⟨_, h⟩
      · exact Or.inl ⟨_, h⟩
      · exact Or.inl ⟨_, h⟩
      · exact mem_b64EncodeChars rest c h

/-- A base64url string never contains a dot, so `token.split('.')` cannot
be confused by the signature or an honestly-encoded payload. -/
theorem base64urlEncode_no_dot (bs : List Nat) : '.' ∉ (base64urlEncode bs).data := by
  intro hmem
  unfold base64urlEncode at hmem
  rw [show (String.mk ((b64EncodeChars bs).filterMap fun c =>
      if c = '=' then none else if c = '+' then some '-'
      else if c = '/' then some '_' else some c)).data =
    ((b64EncodeChars bs).filterMap fun c =>
      if c = '=' then none else if c = '+' then some '-'
      else if c = '/' then some '_' else some c) from rfl] at hmem
  rw [List.mem_filterMap] at hmem
  obtain ⟨c0, hc0, hf⟩ := hmem
  rcases mem_b64EncodeChars bs c0 hc0 with ⟨n, hn⟩ | he
  · subst hn
    split_ifs at hf <;> simp at hf
    exact b64Char_ne n '.' (Or.inl rfl) hf
  · subst he
    simp at hf

/-- Splitting a separator-free list is the identity. -/
theorem jsSplitChars_no_sep (sep : Char) : ∀ (l : List Char), sep ∉ l →
    jsSplitChars sep l = [l]
  | [] => fun _ => rfl
  | c :: cs => fun h => by
      have h1 : c ≠ sep := fun e => h (e ▸ List.mem_cons_self c cs)
      have h2 : sep ∉ cs := fun e => h (List.mem_cons_of_mem c e)
      simp [jsSplitChars, jsSplitChars_no_sep sep cs h2, h1]

/-- Splitting `a ++ "." ++ b` for dot-free `a`, `b` (char level). -/
theorem jsSplitChars_append (b : List Char) (hb : '.' ∉ b) :
    ∀ (a : List Char), '.' ∉ a → jsSplitChars '.' (a ++ '.' :: b) = [a, b]
  | [] => fun _ => by
      simp [jsSplitChars, jsSplitChars_no_sep '.' b hb]
  | c :: cs => fun h => by
      have h1 : c ≠ '.' := fun e => h (e ▸ List.mem_cons_self c cs)
      have h2 : '.' ∉ cs := fun e => h (List.mem_cons_of_mem c e)
      simp [jsSplitChars, jsSplitChars_append b hb cs h2, h1]

/-- `(a ++ "." ++ b).split('.') = [a, b]` for dot-free `a`, `b`. -/
theorem jsSplit_dot (a b : String) (ha : '.' ∉ a.data) (hb : '.' ∉ b.data) :
    jsSplit '.' (a ++ "." ++ b) = [a, b] := by
  rcases a with ⟨da⟩
  rcases b with ⟨db⟩
  have hdata : (((⟨da⟩ : String) ++ "." ++ (⟨db⟩ : String))).data = da ++ '.' :: db := by
    simp [String.data_append]
  unfold jsSplit
  rw [hdata, jsSplitChars_append db hb da ha]
  rfl

/-- A well-formed token is a non-empty string. -/
theorem append_dot_ne_empty (a b : String) : a ++ "." ++ b ≠ "" := by
  intro h
  have h2 := congrArg String.data h
  simp [String.data_append] at h2

/-- Rejection: missing token. -/
theorem verifyToken_missing (hmac : String → String → List Nat) (now : Int)
    (secret : String) : verifyToken hmac now secret "" = none := rfl

/-- Rejection: not exactly two dot-separated parts. -/
theorem verifyToken_badShape (hmac : String → String → List Nat) (now : Int)
    (secret t : String) (ht : (jsSplit '.' t).length ≠ 2) :
    verifyToken hmac now secret t = none := by
  unfold verifyToken
  split
  · rfl
  · split
    · rename_i p s heq
      exact absurd (by rw [heq]; rfl) ht
    · rfl

/-- Rejection: signature mismatch. -/
theorem verifyToken_sigMismatch (hmac : String → String → List Nat) (now : Int)
    (secret t p s : String) (heq : jsSplit '.' t = [p, s])
    (hne : s ≠ signToken hmac secret p) :
    verifyToken hmac now secret t = none := by
  unfold verifyToken
  split
  · rfl
  · split
    · rename_i p' s' heq2
      rw [heq] at heq2
      simp at heq2
      obtain ⟨hp, hs'⟩ := heq2
      subst hp; subst hs'
      dsimp only
      rw [if_pos hne]
    · rfl

/-- Rejection: payload fails to parse (caught, returning null). -/
theorem verifyToken_parseFail (hmac : String → String → List Nat) (now : Int)
    (secret t p s : String) (heq : jsSplit '.' t = [p, s])
    (hparse : jsonParse (bytesToStr (base64urlDecode p)) = none) :
    verifyToken hmac now secret t = none := by
  unfold verifyToken
  split
  · rfl
  · split
    · rename_i p' s' heq2
      rw [heq] at heq2
      simp at heq2
      obtain ⟨hp, hs'⟩ := heq2
      subst hp; subst hs'
      dsimp only
      split
      · rfl
      · rw [hparse]
    · rfl

/-- Rejection: parsed payload lacks the `u` field. -/
theorem verifyToken_noU (hmac : String → String → List Nat) (now : Int)
    (secret t p s : String) (heq : jsSplit '.' t = [p, s]) (payload : Json)
    (hparse : jsonParse (bytesToStr (base64urlDecode p)) = some payload)
    (hu : payload.get "u" = none) :
    verifyToken hmac now secret t = none := by
  unfold verifyToken
  split
  · rfl
  · split
    · rename_i p' s' heq2
      rw [heq] at heq2
      simp at heq2
      obtain ⟨hp, hs'⟩ := heq2
      subst hp; subst hs'
      dsimp only
      split
      · rfl
      · rw [hparse]
        dsimp only
        split
        · rfl
        · rw [if_pos (by simp [hu, truthyOpt])]
    · rfl

/-- Rejection: truthy numeric `exp` in the past. -/
theorem verifyToken_expPast (hmac : String → String → List Nat) (now : Int)
    (secret t p s : String) (heq : jsSplit '.' t = [p, s])
    (payload e : Json) (v : Int)
    (hparse : jsonParse (bytesToStr (base64urlDecode p)) = some payload)
    (hexp : payload.get "exp" = some e) (htr : e.truthy = true)
    (hv : e.toNumber = some v) (hpast : now > v) :
    verifyToken hmac now secret t = none := by
  unfold verifyToken
  split
  · rfl
  · split
    · rename_i p' s' heq2
      rw [heq] at heq2
      simp at heq2
      obtain ⟨hp, hs'⟩ := heq2
      subst hp; subst hs'
      dsimp only
      split
      · rfl
      · rw [hparse]
        dsimp only
        rw [if_pos (by rw [hexp]; simp [htr, hv]; omega)]
    · rfl

/-- Particular: a well-formed `createToken` token with a valid signature
and `exp = 5` (nonzero, in the past relative to the given clock) is
rejected, for every HMAC and secret. -/
theorem verifyToken_expiredValid (hmac : String → String → List Nat) (secret : String) :
    verifyToken hmac 1760227200000 secret
      (createToken hmac secret (.obj [("u", .str "alice"), ("exp", .num 5)])) = none := by
  unfold createToken
  have hP : '.' ∉ (base64urlEncode (strBytes (jsonStringify
      (Json.obj [("u", .str "alice"), ("exp", .num 5)])))).data := base64urlEncode_no_dot _
  have hS : '.' ∉ (signToken hmac secret (base64urlEncode (strBytes (jsonStringify
      (Json.obj [("u", .str "alice"), ("exp", .num 5)]))))).data := base64urlEncode_no_dot _
  unfold verifyToken
  rw [if_neg (append_dot_ne_empty _ _), jsSplit_dot _ _ hP hS]
  dsimp only
  rw [if_neg (not_not_intro rfl)]
  rfl

/-- Particular: a token whose payload part was tampered with is rejected
by the signature comparison, provided the HMAC digests of the two payload
strings differ (the collision-freeness the scheme relies on). -/
theorem verifyToken_tampered (hmac : String → String → List Nat) (now : Int)
    (secret p p2 : String) (hp2 : '.' ∉ p2.data)
    (hne : signToken hmac secret p ≠ signToken hmac secret p2) :
    verifyToken hmac now secret (p2 ++ "." ++ signToken hmac secret p) = none := by
  have hS : '.' ∉ (signToken hmac secret p).data := base64urlEncode_no_dot _
  unfold verifyToken
  rw [if_neg (append_dot_ne_empty _ _), jsSplit_dot _ _ hp2 hS]
  dsimp only
  rw [if_pos hne]

/-- C7 is false as stated: a token with `exp = 0` — an `exp` field in the
past (epoch 1970) — built by `createToken` with a valid signature and a
present `u` field is ACCEPTED by `verifyToken`, because the guard
`payload.exp && Date.now() > payload.exp` skips a falsy (zero) `exp`. -/
theorem C7_counterexample :
    verifyToken (fun _ _ => [7, 7, 7]) 1760227200000 "s"
      (createToken (fun _ _ => [7, 7, 7]) "s" (.obj [("u", .str "alice"), ("exp", .num 0)])) =
      some (.obj [("u", .str "alice"), ("exp", .num 0)]) ∧
    (0 : Int) < 1760227200000 :=
  ⟨rfl, by norm_num⟩

/-- C7 amended: `verifyToken` (total, hence never throwing) returns `null`
when the token is missing, does not split into exactly two dot-separated
parts, has a mismatched signature, has an undecodable payload, lacks the
`u` field, or has a TRUTHY (nonzero) numeric `exp` in the past — a zero
`exp` is skipped by the truthiness guard; in particular a well-formed
expired token with a valid signature is rejected for every HMAC and
secret, and a token whose payload was tampered with is rejected by the
signature comparison whenever the two HMAC digests differ. -/
theorem C7_token_rejection_amended :
    (∀ (hmac : String → String → List Nat) (now : Int) (secret : String),
      verifyToken hmac now secret "" = none) ∧
    (∀ (hmac : String → String → List Nat) (now : Int) (secret t : String),
      (jsSplit '.' t).length ≠ 2 → verifyToken hmac now secret t = none) ∧
    (∀ (hmac : String → String → List Nat) (now : Int) (secret t p s : String),
      jsSplit '.' t = [p, s] → s ≠ signToken hmac secret p →
      verifyToken hmac now secret t = none) ∧
    (∀ (hmac : String → String → List Nat) (now : Int) (secret t p s : String),
      jsSplit '.' t = [p, s] →
      jsonParse (bytesToStr (base64urlDecode p)) = none →
      verifyToken hmac now secret t = none) ∧
    (∀ (hmac : String → String → List Nat) (now : Int) (secret t p s : String)
       (payload : Json),
      jsSplit '.' t = [p, s] →
      jsonParse (bytesToStr (base64urlDecode p)) = some payload →
      payload.get "u" = none →
      verifyToken hmac now secret t = none) ∧
    (∀ (hmac : String → String → List Nat) (now : Int) (secret t p s : String)
       (payload e : Json) (v : Int),
      jsSplit '.' t = [p, s] →
      jsonParse (bytesToStr (base64urlDecode p)) = some payload →
      payload.get "exp" = some e → e.truthy = true → e.toNumber = some v → now > v →
      verifyToken hmac now secret t = none) ∧
    (∀ (hmac : String → String → List Nat) (secret : String),
      verifyToken hmac 1760227200000 secret
        (createToken hmac secret (.obj [("u", .str "alice"), ("exp", .num 5)])) = none) ∧
    (∀ (hmac : String → String → List Nat) (now : Int) (secret p p2 : String),
      '.' ∉ p2.data →
      signToken hmac secret p ≠ signToken hmac secret p2 →
      verifyToken hmac now secret (p2 ++ "." ++ signToken hmac secret p) = none) :=
  ⟨verifyToken_missing,
   verifyToken_badShape,
   fun hmac now secret t p s heq hne => verifyToken_sigMismatch hmac now secret t p s heq hne,
   fun hmac now secret t p s heq hparse => verifyToken_parseFail hmac now secret t p s heq hparse,
   fun hmac now secret t p s payload heq hparse hu =>
     verifyToken_noU hmac now secret t p s heq payload hparse hu,
   fun hmac now secret t p s payload e v heq hparse hexp htr hv hpast =>
     verifyToken_expPast hmac now secret t p s heq payload e v hparse hexp htr hv hpast,
   verifyToken_expiredValid,
   verifyToken_tampered⟩

/-- Witness for the amended C7, exercising every conjunct at concrete
inputs (constant digest `[7,7,7]` for the valid-signature cases, a
message-dependent digest for the tamper case). -/
theorem C7_token_rejection_amended_witness :
    verifyToken (fun _ _ => [7, 7, 7]) 100 "s" "" = none ∧
    ((jsSplit '.' "abc").length ≠ 2 ∧
      verifyToken (fun _ _ => [7, 7, 7]) 100 "s" "abc" = none) ∧
    (jsSplit '.' "a.b" = ["a", "b"] ∧ "b" ≠ signToken (fun _ _ => [7, 7, 7]) "s" "a" ∧
      verifyToken (fun _ _ => [7, 7, 7]) 100 "s" "a.b" = none) ∧
    (jsSplit '.' ".b" = ["", "b"] ∧
      jsonParse (bytesToStr (base64urlDecode "")) = none ∧
      verifyToken (fun _ _ => [7, 7, 7]) 100 "s" ".b" = none) ∧
    (jsSplit '.' "eyJhIjoxfQ.b" = ["eyJhIjoxfQ", "b"] ∧
      jsonParse (bytesToStr (base64urlDecode "eyJhIjoxfQ")) = some (.obj [("a", .num 1)]) ∧
      (Json.obj [("a", .num 1)]).get "u" = none ∧
      verifyToken (fun _ _ => [7, 7, 7]) 100 "s" "eyJhIjoxfQ.b" = none) ∧
    (jsSplit '.' "eyJ1IjoiYWxpY2UiLCJleHAiOjV9.b" = ["eyJ1IjoiYWxpY2UiLCJleHAiOjV9", "b"] ∧
      jsonParse (bytesToStr (base64urlDecode "eyJ1IjoiYWxpY2UiLCJleHAiOjV9")) =
        some (.obj [("u", .str "alice"), ("exp", .num 5)]) ∧
      (Json.obj [("u", .str "alice"), ("exp", .num 5)]).get "exp" = some (.num 5) ∧
      (Json.num 5).truthy = true ∧ (Json.num 5).toNumber = some 5 ∧ (100 : Int) > 5 ∧
      verifyToken (fun _ _ => [7, 7, 7]) 100 "s" "eyJ1IjoiYWxpY2UiLCJleHAiOjV9.b" = none) ∧
    verifyToken (fun _ _ => [7, 7, 7]) 1760227200000 "s"
      (createToken (fun _ _ => [7, 7, 7]) "s" (.obj [("u", .str "alice"), ("exp", .num 5)])) =
      none ∧
    ('.' ∉ ("y" : String).data ∧
      signToken (fun _ m => strBytes m) "s" "x" ≠ signToken (fun _ m => strBytes m) "s" "y" ∧
      verifyToken (fun _ m => strBytes m) 100 "s"
        ("y" ++ "." ++ signToken (fun _ m => strBytes m) "s" "x") = none) := by
  refine ⟨C7_token_rejection_amended.1 _ 100 "s",
    ⟨by decide, C7_token_rejection_amended.2.1 _ 100 "s" "abc" (by decide)⟩,
    ⟨rfl, by decide, C7_token_rejection_amended.2.2.1 _ 100 "s" "a.b" "a" "b" rfl (by decide)⟩,
    ⟨rfl, rfl, C7_token_rejection_amended.2.2.2.1 _ 100 "s" ".b" "" "b" rfl rfl⟩,
    ⟨rfl, rfl, rfl, C7_token_rejection_amended.2.2.2.2.1 _ 100 "s" "eyJhIjoxfQ.b"
      "eyJhIjoxfQ" "b" (.obj [("a", .num 1)]) rfl rfl rfl⟩,
    ⟨rfl, rfl, rfl, rfl, rfl, by norm_num,
      C7_token_rejection_amended.2.2.2.2.2.1 _ 100 "s" "eyJ1IjoiYWxpY2UiLCJleHAiOjV9.b"
        "eyJ1IjoiYWxpY2UiLCJleHAiOjV9" "b" (.obj [("u", .str "alice"), ("exp", .num 5)])
        (.num 5) 5 rfl rfl rfl rfl rfl (by norm_num)⟩,
    C7_token_rejection_amended.2.2.2.2.2.2.1 _ "s",
    ⟨by decide, by decide,
      C7_token_rejection_amended.2.2.2.2.2.2.2 _ 100 "s" "x" "y" (by decide) (by decide)⟩⟩

/-! ### Inline-image materialization lemmas (C1) -/

/-- Base64 output never contains a newline, so a canonical payload always
satisfies the data-URL regex (whose `.` does not match newlines). -/
theorem base64Encode_no_newline (bs : List Nat) : '\n' ∉ (base64Encode bs).data := by
  intro hmem
  rw [show (base64Encode bs).data = b64EncodeChars bs from rfl] at hmem
  rcases mem_b64EncodeChars bs '\n' hmem with ⟨n, hn⟩ | he
  · exact b64Char_ne n '\n' (Or.inr (Or.inl rfl)) hn.symm
  · exact absurd he (by decide)

/-- A canonical base64 string is (propositionally) a re-encoding of its
decoding. -/
theorem canonical_shape (d : String) (h : isCanonicalBase64 d = true) :
    base64Encode (base64Decode d) = d := by
  unfold isCanonicalBase64 at h
  exact eq_of_beq h

/-- The data-URL regex on the reconstructed synthetic URL: for a nonempty
newline-free payload it yields `image/png` and the payload itself. -/
theorem parseDataUrl_png (d : String) (hne : d.data ≠ []) (hnl : '\n' ∉ d.data) :
    parseDataUrl ("data:image/png;base64," ++ d) = some ("image/png", d) := by
  rcases d with ⟨dd⟩
  have key : parseDataUrl ("data:image/png;base64," ++ (⟨dd⟩ : String)) =
      if dd ≠ [] ∧ ¬ '\n' ∈ dd then some ("image/png", (⟨dd⟩ : String)) else none := rfl
  rw [key, if_pos ⟨hne, hnl⟩]

/-- C1 is false as stated: the empty string IS a valid canonical base64
string (it encodes zero bytes), yet a part whose `inline_data.data` is
`""` is skipped entirely — `convertInlineDataToDataUrl` requires a truthy
`data` — so the materialized result still contains the `inline_data` key,
and no `file_data` replacement happens. -/
theorem C1_counterexample :
    isCanonicalBase64 "" = true ∧
    (matNode ⟨"alice", "chats", "1", (fun n => "f" ++ toString n),
        (fun _ => .error ⟨none, "net"⟩), (fun _ => none)⟩ MatState.empty
        (.obj [("inline_data", .obj [("mime_type", .str "image/png"), ("data", .str "")])])).2 =
      .ok (.obj [("inline_data", .obj [("mime_type", .str "image/png"), ("data", .str "")])]) ∧
    ((Json.obj [("inline_data", .obj [("mime_type", .str "image/png"),
        ("data", .str "")])]).get "inline_data").isSome = true :=
  ⟨rfl, rfl, rfl⟩

/-- C1 amended (nonempty payload): for every NONEMPTY canonical base64 `d`,
materializing the part `{inline_data: {mime_type: "image/png", data: d}}`
replaces the entire part by `{file_data: {mime_type: "image/png",
file_uri: u}}` with `u` the URI of the one freshly stored file, the result
has no `inline_data` key, the stored file's bytes are `base64Decode d`,
and re-encoding those bytes reproduces `d` exactly. -/
theorem C1_inline_materialization :
    ∀ (user ftype favId : String) (gen : Nat → String)
      (fetch : String → Except FetchErr (List Nat × String))
      (userDisk : String → Option (List Nat)) (d : String),
      isCanonicalBase64 d = true → d ≠ "" →
      matNode ⟨user, ftype, favId, gen, fetch, userDisk⟩ MatState.empty
          (.obj [("inline_data", .obj [("mime_type", .str "image/png"), ("data", .str d)])]) =
        (⟨1, [("data:image/png;base64," ++ d,
               mkFavUri ⟨user, ftype, favId, gen, fetch, userDisk⟩ (gen 0 ++ ".png"))], [],
          [(gen 0 ++ ".png", base64Decode d)]⟩,
         .ok (.obj [("file_data", .obj [("mime_type", .str "image/png"),
              ("file_uri", .str (mkFavUri ⟨user, ftype, favId, gen, fetch, userDisk⟩
                (gen 0 ++ ".png")))])])) ∧
      base64Encode (base64Decode d) = d ∧
      (Json.obj [("file_data", .obj [("mime_type", .str "image/png"),
          ("file_uri", .str (mkFavUri ⟨user, ftype, favId, gen, fetch, userDisk⟩
            (gen 0 ++ ".png")))])]).get "inline_data" = none := by
  intro user ftype favId gen fetch userDisk d hcanon hd
  have henc := canonical_shape d hcanon
  have hnl : '\n' ∉ d.data := by
    rw [← henc]; exact base64Encode_no_newline _
  have hne : d.data ≠ [] := by
    intro h0
    exact hd (by rcases d with ⟨dd⟩; simp at h0; rw [h0])
  refine ⟨?_, henc, rfl⟩
  have hconv : convertInlineDataToDataUrl
      (.obj [("inline_data", .obj [("mime_type", .str "image/png"), ("data", .str d)])]) =
      some ("data:image/png;base64," ++ d) := by
    have key : convertInlineDataToDataUrl
        (.obj [("inline_data", .obj [("mime_type", .str "image/png"), ("data", .str d)])]) =
        if ¬ (Json.str d).truthy then none else some ("data:image/png;base64," ++ d) := rfl
    rw [key, if_neg (by simp [Json.truthy, hd])]
  have hstep : gen 0 ++ "." ++ "png" = gen 0 ++ ".png" := by
    rw [String.append_assoc]
    rfl
  have hmat : materializeDataUrl ⟨user, ftype, favId, gen, fetch, userDisk⟩ MatState.empty
      ("data:image/png;base64," ++ d) =
      (mkFavUri ⟨user, ftype, favId, gen, fetch, userDisk⟩ (gen 0 ++ ".png"),
       ⟨1, [("data:image/png;base64," ++ d,
             mkFavUri ⟨user, ftype, favId, gen, fetch, userDisk⟩ (gen 0 ++ ".png"))], [],
        [(gen 0 ++ ".png", base64Decode d)]⟩) := by
    unfold materializeDataUrl
    rw [show (MatState.empty.dataUrlMap.lookup ("data:image/png;base64," ++ d)) = none from rfl]
    rw [parseDataUrl_png d hne hnl]
    dsimp only
    rw [show mimeToExt "image/png" = "png" from rfl, show MatState.empty.counter = 0 from rfl,
      hstep]
    rfl
  have hpa : packedAsset (.obj [("inline_data",
      .obj [("mime_type", .str "image/png"), ("data", .str d)])]) = none := rfl
  simp only [matNode, hpa, hconv, hmat]
  rfl

/-- Witness for the amended C1 at `d = "SGk="` (the bytes `"Hi"`): the part
is replaced by the `file_data` reference, one file `f0.png` holding
`[72, 105]` is stored, and re-encoding gives back `"SGk="`. -/
theorem C1_inline_materialization_witness :
    (isCanonicalBase64 "SGk=" = true ∧ "SGk=" ≠ "") ∧
    (matNode ⟨"alice", "chats", "1", (fun n => "f" ++ toString n),
        (fun _ => .error ⟨none, "net"⟩), (fun _ => none)⟩ MatState.empty
        (.obj [("inline_data", .obj [("mime_type", .str "image/png"), ("data", .str "SGk=")])]) =
      (⟨1, [("data:image/png;base64," ++ "SGk=",
             mkFavUri ⟨"alice", "chats", "1", (fun n => "f" ++ toString n),
               (fun _ => .error ⟨none, "net"⟩), (fun _ => none)⟩
               ((fun n : Nat => "f" ++ toString n) 0 ++ ".png"))], [],
        [((fun n : Nat => "f" ++ toString n) 0 ++ ".png", base64Decode "SGk=")]⟩,
       .ok (.obj [("file_data", .obj [("mime_type", .str "image/png"),
            ("file_uri", .str (mkFavUri ⟨"alice", "chats", "1",
              (fun n => "f" ++ toString n), (fun _ => .error ⟨none, "net"⟩), (fun _ => none)⟩
              ((fun n : Nat => "f" ++ toString n) 0 ++ ".png")))])])) ∧
     base64Encode (base64Decode "SGk=") = "SGk=" ∧
     (Json.obj [("file_data", .obj [("mime_type", .str "image/png"),
         ("file_uri", .str (mkFavUri ⟨"alice", "chats", "1",
           (fun n => "f" ++ toString n), (fun _ => .error ⟨none, "net"⟩), (fun _ => none)⟩
           ((fun n : Nat => "f" ++ toString n) 0 ++ ".png")))])]).get "inline_data" = none) :=
  ⟨⟨by decide, by decide⟩,
   C1_inline_materialization "alice" "chats" "1" (fun n => "f" ++ toString n)
     (fun _ => .error ⟨none, "net"⟩) (fun _ => none) "SGk=" (by decide) (by decide)⟩

/-! ### Deduplication lemmas (C2) -/

/-- `List.lookup` through a cons cell, with propositional key equality. -/
theorem lookup_cons {α : Type} (k k' : String) (v : α) (l : List (String × α)) :
    List.lookup k ((k', v) :: l) = if k = k' then some v else List.lookup k l := by
  rw [List.lookup]
  by_cases h : k = k'
  · have hb : (k == k') = true := by simp [h]
    simp [hb, h]
  · have hb : (k == k') = false := by simp [h]
    simp [hb, h]

/-- `setKey` on an absent key appends the new binding (JS `Map.set`). -/
theorem setKey_absent {α : Type} (k : String) (v : α) :
    ∀ (m : List (String × α)), m.lookup k = none → setKey k v m = m ++ [(k, v)]
  | [] => fun _ => rfl
  | (k', v') :: rest => fun h => by
      rw [lookup_cons] at h
      by_cases hk : k = k'
      · simp [hk] at h
      · rw [if_neg hk] at h
        unfold setKey
        rw [if_neg (fun e => hk e.symm)]
        rw [setKey_absent k v rest h]
        rfl

/-- A binding found on the left survives an append on the right. -/
theorem lookup_append_left {α : Type} (k : String) :
    ∀ (m1 m2 : List (String × α)) (v : α), m1.lookup k = some v →
      (m1 ++ m2).lookup k = some v
  | [], _, _ => fun h => by simp [List.lookup] at h
  | (k', v') :: rest, m2, v => fun h => by
      rw [lookup_cons] at h
      rw [show ((k', v') :: rest ++ m2) = (k', v') :: (rest ++ m2) from rfl, lookup_cons]
      by_cases hk : k = k'
      · simpa [hk] using h
      · rw [if_neg hk] at h
        rw [if_neg hk]
        exact lookup_append_left k rest m2 v h

/-- Lookup skips a left part that misses the key. -/
theorem lookup_append_right {α : Type} (k : String) :
    ∀ (m1 m2 : List (String × α)), m1.lookup k = none →
      (m1 ++ m2).lookup k = m2.lookup k
  | [], m2 => fun _ => rfl
  | (k', v') :: rest, m2 => fun h => by
      rw [lookup_cons] at h
      by_cases hk : k = k'
      · simp [hk] at h
      · rw [if_neg hk] at h
        rw [show ((k', v') :: rest ++ m2) = (k', v') :: (rest ++ m2) from rfl, lookup_cons,
          if_neg hk]
        exact lookup_append_right k rest m2 h

/-- A key with no binding is not among the keys. -/
theorem lookup_none_not_mem_keys {α : Type} (k : String) :
    ∀ (m : List (String × α)), m.lookup k = none → k ∉ m.map Prod.fst
  | [] => fun _ h => by simp at h
  | (k', v') :: rest => fun h hmem => by
      rw [lookup_cons] at h
      by_cases hk : k = k'
      · simp [hk] at h
      · rw [if_neg hk] at h
        simp at hmem
        rcases hmem with h1 | h1
        · exact hk h1
        · exact lookup_none_not_mem_keys k rest h (by simpa using h1)

/-- `MapExtends` is reflexive. -/
theorem mapExtends_refl (st : MatState) : MapExtends st st := fun _ _ h => h

/-- `MapExtends` composes. -/
theorem mapExtends_trans {a b c : MatState} (h1 : MapExtends a b) (h2 : MapExtends b c) :
    MapExtends a c := fun p u h => h2 p u (h1 p u h)

/-- `materializeDataUrl` preserves the bookkeeping invariant (a hit or an
unparseable URL changes nothing; a miss draws one name, writes one file
and adds one memo entry) and never discards memo entries. -/
theorem materializeDataUrl_inv (env : MatEnv) (st : MatState) (dataUrl : String)
    (hA : MatInv st) :
    MatInv (materializeDataUrl env st dataUrl).2 ∧
    MapExtends st (materializeDataUrl env st dataUrl).2 := by
  unfold materializeDataUrl
  cases hm : st.dataUrlMap.lookup dataUrl with
  | some uri => exact ⟨hA, mapExtends_refl st⟩
  | none =>
      cases hp : parseDataUrl dataUrl with
      | none => exact ⟨hA, mapExtends_refl st⟩
      | some mb =>
          rcases mb with ⟨mime, b64⟩
          dsimp only
          constructor
          · constructor
            · rw [setKey_absent _ _ _ hm]
              simp [MatInv] at hA ⊢
              omega
            · rw [setKey_absent _ _ _ hm]
              simp only [List.map_append]
              rw [List.nodup_append]
              refine ⟨hA.2, by simp, ?_⟩
              intro a ha hb
              simp at hb
              subst hb
              exact lookup_none_not_mem_keys _ _ hm ha
          · intro p u hu
            rw [setKey_absent _ _ _ hm]
            exact lookup_append_left p _ _ u hu

/-- A memoized payload returns its recorded `file_uri` with no new write. -/
theorem materializeDataUrl_hit (env : MatEnv) (st : MatState) (dataUrl u : String)
    (hm : st.dataUrlMap.lookup dataUrl = some u) :
    materializeDataUrl env st dataUrl = (u, st) := by
  unfold materializeDataUrl
  rw [hm]

/-- A first occurrence of a parseable payload writes one file and records
the memo entry that every later occurrence will hit. -/
theorem materializeDataUrl_miss (env : MatEnv) (st : MatState) (dataUrl mime b64 : String)
    (hm : st.dataUrlMap.lookup dataUrl = none)
    (hp : parseDataUrl dataUrl = some (mime, b64)) :
    materializeDataUrl env st dataUrl =
      (mkFavUri env (env.gen st.counter ++ "." ++ mimeToExt mime),
       { counter := st.counter + 1,
         dataUrlMap := setKey dataUrl
           (mkFavUri env (env.gen st.counter ++ "." ++ mimeToExt mime)) st.dataUrlMap,
         remoteUrlMap := st.remoteUrlMap,
         files := setKey (env.gen st.counter ++ "." ++ mimeToExt mime) (base64Decode b64)
           st.files }) ∧
    (materializeDataUrl env st dataUrl).2.dataUrlMap.lookup dataUrl =
      some (mkFavUri env (env.gen st.counter ++ "." ++ mimeToExt mime)) := by
  constructor
  · unfold materializeDataUrl
    rw [hm, hp]
  · unfold materializeDataUrl
    rw [hm, hp]
    dsimp only
    rw [setKey_absent _ _ _ hm, lookup_append_right _ _ _ hm, lookup_cons, if_pos rfl]

/-- A data-image string leaf dispatches to the data-URL materializer. -/
theorem matNode_str_dataUrl (env : MatEnv) (st : MatState) (p : String)
    (hds : strStarts p "data:image/" = true) (hin : strIncludes p ";base64," = true) :
    matNode env st (.str p) =
      ((materializeDataUrl env st p).2, .ok (.str (materializeDataUrl env st p).1)) := by
  simp only [matNode]
  rw [if_pos ⟨hds, hin⟩]

mutual
/-- On a tree with no `/files/` and no remote-URL string leaves the
traversal cannot throw, keeps the bookkeeping invariant, and only grows
the memo: node form. -/
theorem matNode_safe (env : MatEnv) : ∀ (j : Json) (st : MatState),
    matSafeB env.user j = true → MatInv st →
    ∃ v st', matNode env st j = (st', .ok v) ∧ MatInv st' ∧ MapExtends st st'
  | .null => fun st _ hA => ⟨.null, st, rfl, hA, mapExtends_refl st⟩
  | .bool b => fun st _ hA => ⟨.bool b, st, rfl, hA, mapExtends_refl st⟩
  | .num n => fun st _ hA => ⟨.num n, st, rfl, hA, mapExtends_refl st⟩
  | .str s => fun st hs hA => by
      unfold matSafeB at hs
      simp only [Bool.and_eq_true, Bool.not_eq_true'] at hs
      by_cases hd : strStarts s "data:image/" = true ∧ strIncludes s ";base64," = true
      · refine ⟨.str (materializeDataUrl env st s).1, (materializeDataUrl env st s).2,
          ?_, ?_, ?_⟩
        · rw [matNode_str_dataUrl env st s hd.1 hd.2]
        · exact (materializeDataUrl_inv env st s hA).1
        · exact (materializeDataUrl_inv env st s hA).2
      · refine ⟨.str s, st, ?_, hA, mapExtends_refl st⟩
        simp only [matNode]
        rw [if_neg hd, if_neg (by simp [hs.1]), if_neg (by simp [hs.2])]
  | .arr es => fun st hs hA => by
      obtain ⟨vs, st', heq, hA', hext⟩ := matList_safe env es st hs hA
      exact ⟨.arr vs, st', by simp only [matNode, heq], hA', hext⟩
  | .obj fs => fun st hs hA => by
      simp only [matNode]
      cases hpa : packedAsset (Json.obj fs) with
      | some md =>
          rcases md with ⟨mime, data⟩
          refine ⟨_, _, rfl, ?_, ?_⟩
          · exact (materializeDataUrl_inv env st _ hA).1
          · exact (materializeDataUrl_inv env st _ hA).2
      | none =>
          cases hcv : convertInlineDataToDataUrl (Json.obj fs) with
          | some dataUrl =>
              refine ⟨_, _, rfl, ?_, ?_⟩
              · exact (materializeDataUrl_inv env st _ hA).1
              · exact (materializeDataUrl_inv env st _ hA).2
          | none =>
              obtain ⟨ws, st', heq, hA', hext⟩ := matFields_safe env fs st hs hA
              exact ⟨.obj ws, st', by rw [heq], hA', hext⟩

/-- Safe-traversal invariant: array elements. -/
theorem matList_safe (env : MatEnv) : ∀ (l : List Json) (st : MatState),
    matSafeListB env.user l = true → MatInv st →
    ∃ vs st', matList env st l = (st', .ok vs) ∧ MatInv st' ∧ MapExtends st st'
  | [] => fun st _ hA => ⟨[], st, rfl, hA, mapExtends_refl st⟩
  | x :: xs => fun st hs hA => by
      unfold matSafeListB at hs
      simp only [Bool.and_eq_true] at hs
      obtain ⟨v, st1, h1, hA1, he1⟩ := matNode_safe env x st hs.1 hA
      obtain ⟨vs, st2, h2, hA2, he2⟩ := matList_safe env xs st1 hs.2 hA1
      exact ⟨v :: vs, st2, by simp only [matList, h1, h2], hA2, mapExtends_trans he1 he2⟩

/-- Safe-traversal invariant: object fields. -/
theorem matFields_safe (env : MatEnv) : ∀ (l : List (String × Json)) (st : MatState),
    matSafeFieldsB env.user l = true → MatInv st →
    ∃ ws st', matFields env st l = (st', .ok ws) ∧ MatInv st' ∧ MapExtends st st'
  | [] => fun st _ hA => ⟨[], st, rfl, hA, mapExtends_refl st⟩
  | (k, v) :: xs => fun st hs hA => by
      unfold matSafeFieldsB at hs
      simp only [Bool.and_eq_true] at hs
      obtain ⟨w, st1, h1, hA1, he1⟩ := matNode_safe env v st hs.1 hA
      obtain ⟨ws, st2, h2, hA2, he2⟩ := matFields_safe env xs st1 hs.2 hA1
      exact ⟨(k, w) :: ws, st2, by simp only [matFields, h1, h2], hA2, mapExtends_trans he1 he2⟩
end

/-- Array traversal splits over appends, threading the state. -/
theorem matList_append (env : MatEnv) : ∀ (xs ys : List Json) (st : MatState),
    matList env st (xs ++ ys) =
      (match matList env st xs with
       | (st1, .error e) => (st1, .error e)
       | (st1, .ok vs) =>
           match matList env st1 ys with
           | (st2, .error e) => (st2, .error e)
           | (st2, .ok ws) => (st2, .ok (vs ++ ws)))
  | [], ys, st => by
      simp only [List.nil_append, matList]
      rcases h : matList env st ys with ⟨st2, r⟩
      cases r <;> rfl
  | x :: xs, ys, st => by
      simp only [List.cons_append, matList]
      rcases h1 : matNode env st x with ⟨st1, r1⟩
      cases r1 with
      | error e => rfl
      | ok v =>
          dsimp only
          simp only [List.append_eq]
          rw [matList_append env xs ys st1]
          rcases h2 : matList env st1 xs with ⟨st2, r2⟩
          cases r2 with
          | error e => rfl
          | ok vs =>
              dsimp only
              rcases h3 : matList env st2 ys with ⟨st3, r3⟩
              cases r3 <;> rfl

/-- The defining equation of `matList` on a cons cell. -/
theorem matList_cons (env : MatEnv) (st : MatState) (x : Json) (xs : List Json) :
    matList env st (x :: xs) =
      (match matNode env st x with
       | (st1, .error e) => (st1, .error e)
       | (st1, .ok y) =>
           match matList env st1 xs with
           | (st2, .error e) => (st2, .error e)
           | (st2, .ok ys) => (st2, .ok (y :: ys))) := rfl

/-- One payload occurrence: either a memo hit (state unchanged) or a first
write that records the memo entry; either way the leaf becomes the
memoized `file_uri` and the invariant survives. -/
theorem matNode_payload_occurrence (env : MatEnv) (st : MatState) (p : String)
    (hds : strStarts p "data:image/" = true) (hin : strIncludes p ";base64," = true)
    (hps : (parseDataUrl p).isSome = true) (hA : MatInv st) :
    ∃ u st', matNode env st (.str p) = (st', .ok (.str u)) ∧
      st'.dataUrlMap.lookup p = some u ∧ MatInv st' ∧ MapExtends st st' := by
  rw [matNode_str_dataUrl env st p hds hin]
  cases hm : st.dataUrlMap.lookup p with
  | some u =>
      rw [materializeDataUrl_hit env st p u hm]
      exact ⟨u, st, rfl, hm, hA, mapExtends_refl st⟩
  | none =>
      rcases hpp : parseDataUrl p with _ | ⟨mime, b64⟩
      · rw [hpp] at hps; simp at hps
      · obtain ⟨heq, hlook⟩ := materializeDataUrl_miss env st p mime b64 hm hpp
        refine ⟨(materializeDataUrl env st p).1, (materializeDataUrl env st p).2, rfl,
          ?_, (materializeDataUrl_inv env st p hA).1, (materializeDataUrl_inv env st p hA).2⟩
        rw [heq] at hlook ⊢
        exact hlook

/-- Leaf-safety distributes over list append. -/
theorem matSafeListB_append (user : String) : ∀ (xs ys : List Json),
    matSafeListB user (xs ++ ys) = (matSafeListB user xs && matSafeListB user ys)
  | [], ys => by simp [matSafeListB]
  | x :: xs, ys => by
      simp only [List.cons_append, matSafeListB, List.append_eq,
        matSafeListB_append user xs ys, Bool.and_assoc]

/-- C2: in a favorite tree (here: an array with arbitrary safe junk
around) in which the same parseable data-URL payload `p` occurs at two
distinct positions, a single materialize call from the empty state ends
with exactly one memo entry for `p` (`Nodup` keys + `lookup = some u`),
rewrites BOTH occurrences to the identical `file_uri` string `u`, and the
final counter — the exact number of file names drawn, each accompanying
exactly one `fsp.writeFile` — equals the number of memo entries, i.e. one
stored file per distinct payload and in particular exactly one for `p`.
The tree is restricted to contain no own-`/files/` and no remote-URL
string leaves, so the only writes are the memoized data-URL ones the
claim speaks about. -/
theorem C2_dedup :
    ∀ (env : MatEnv) (xs ys zs : List Json) (p : String),
      matSafeListB env.user (xs ++ Json.str p :: ys ++ Json.str p :: zs) = true →
      strStarts p "data:image/" = true → strIncludes p ";base64," = true →
      (parseDataUrl p).isSome = true →
      ∃ (u : String) (xs' ys' zs' : List Json) (st' : MatState),
        matNode env MatState.empty (.arr (xs ++ Json.str p :: ys ++ Json.str p :: zs)) =
          (st', .ok (.arr (xs' ++ Json.str u :: ys' ++ Json.str u :: zs'))) ∧
        st'.dataUrlMap.lookup p = some u ∧
        (st'.dataUrlMap.map Prod.fst).Nodup ∧
        st'.counter = st'.dataUrlMap.length + st'.remoteUrlMap.length := by
  intro env xs ys zs p hsafe hds hin hps
  rw [matSafeListB_append, matSafeListB_append] at hsafe
  simp only [Bool.and_eq_true] at hsafe
  obtain ⟨⟨hxs, hpys⟩, hpzs⟩ := hsafe
  have hys : matSafeListB env.user ys = true := by
    have h0 : (matSafeB env.user (Json.str p) && matSafeListB env.user ys) = true := hpys
    simp only [Bool.and_eq_true] at h0
    exact h0.2
  have hzs : matSafeListB env.user zs = true := by
    have h0 : (matSafeB env.user (Json.str p) && matSafeListB env.user zs) = true := hpzs
    simp only [Bool.and_eq_true] at h0
    exact h0.2
  have hA0 : MatInv MatState.empty := ⟨rfl, List.nodup_nil⟩
  obtain ⟨vs, st1, H1, hA1, he1⟩ := matList_safe env xs MatState.empty hxs hA0
  obtain ⟨u, st2, H2, hl2, hA2, he2⟩ := matNode_payload_occurrence env st1 p hds hin hps hA1
  obtain ⟨ws, st3, H3, hA3, he3⟩ := matList_safe env ys st2 hys hA2
  have hl3 : st3.dataUrlMap.lookup p = some u := he3 p u hl2
  have H4 : matNode env st3 (.str p) = (st3, .ok (.str u)) := by
    rw [matNode_str_dataUrl env st3 p hds hin, materializeDataUrl_hit env st3 p u hl3]
  obtain ⟨us, st4, H5, hA4, he4⟩ := matList_safe env zs st3 hzs hA3
  have hl4 := he4 p u hl3
  refine ⟨u, vs, ws, us, st4, ?_, hl4, hA4.2, hA4.1⟩
  simp only [matNode]
  rw [matList_append env (xs ++ Json.str p :: ys) (Json.str p :: zs) MatState.empty,
    matList_append env xs (Json.str p :: ys) MatState.empty, H1]
  dsimp only
  rw [matList_cons env st1 (Json.str p) ys, H2]
  dsimp only
  rw [H3]
  dsimp only
  rw [matList_cons env st3 (Json.str p) zs, H4]
  dsimp only
  rw [H5]

/-- Witness for C2: the payload `data:image/png;base64,SGk=` appearing at
two positions in a small array produces one memo entry, the same URI at
both positions, and a counter of one draw = one stored file. -/
theorem C2_dedup_witness :
    (matSafeListB "alice" ([Json.num 1] ++ Json.str "data:image/png;base64,SGk=" ::
        [] ++ Json.str "data:image/png;base64,SGk=" :: [Json.str "hello"]) = true ∧
     strStarts "data:image/png;base64,SGk=" "data:image/" = true ∧
     strIncludes "data:image/png;base64,SGk=" ";base64," = true ∧
     (parseDataUrl "data:image/png;base64,SGk=").isSome = true) ∧
    (∃ (u : String) (xs' ys' zs' : List Json) (st' : MatState),
      matNode ⟨"alice", "chats", "1", (fun n => "f" ++ toString n),
          (fun _ => .error ⟨none, "net"⟩), (fun _ => none)⟩ MatState.empty
          (.arr ([Json.num 1] ++ Json.str "data:image/png;base64,SGk=" ::
            [] ++ Json.str "data:image/png;base64,SGk=" :: [Json.str "hello"])) =
        (st', .ok (.arr (xs' ++ Json.str u :: ys' ++ Json.str u :: zs'))) ∧
      st'.dataUrlMap.lookup "data:image/png;base64,SGk=" = some u ∧
      (st'.dataUrlMap.map Prod.fst).Nodup ∧
      st'.counter = st'.dataUrlMap.length + st'.remoteUrlMap.length) :=
  ⟨⟨by decide, by decide, by decide, by decide⟩,
   C2_dedup ⟨"alice", "chats", "1", (fun n => "f" ++ toString n),
       (fun _ => .error ⟨none, "net"⟩), (fun _ => none)⟩
     [Json.num 1] [] [Json.str "hello"] "data:image/png;base64,SGk="
     (by decide) (by decide) (by decide) (by decide)⟩

end Banana
